import Mathlib

/-! claude-code-companion: proxy handler, configuration persistence

A shallow embedding of the request handler (`internal/proxy/handler.go`), of
`SaveConfig` (`internal/config/loading.go`) and of the OAuth refresh callback
(`internal/proxy/server.go`), with the properties stated about them.

Conventions.
* A Go `string` is a Lean `String`; `len`, slicing and `strings.HasPrefix`
  act on the sequence of its elements (`String.data`).
* A Go `map[string]bool` is a total function `String → Bool` whose value at
  an absent key is the zero value `false`.
* Side effects of a handler are recorded as an explicit list of events, and
  the filesystem is an explicit function from path to optional content.
-/

namespace Companion

/-! ## Go library primitives -/

/-- Go `map[string]bool`: reading an absent key gives `false`. -/
abbrev StringSet := String → Bool

/-- The value `make(map[string]bool)`. -/
def StringSet.make : StringSet := fun _ => false

/-- The assignment `m[k] = v`. -/
def StringSet.set (m : StringSet) (k : String) (v : Bool) : StringSet :=
  fun x => if x = k then v else m x

/-- Go `strings.HasPrefix(s, p)`: `len(s) >= len(p) && s[:len(p)] == p`. -/
def HasPrefix (s p : String) : Bool :=
  decide (p.data.length ≤ s.data.length) && decide (s.data.take p.data.length = p.data)

/-- Go slice expression `s[n:]`. -/
def sliceFrom (s : String) (n : Nat) : String := String.mk (s.data.drop n)

/-- Go `subtle.ConstantTimeCompare(x, y)`: 1 when the two byte slices have equal
contents, 0 otherwise (0 at once when the lengths differ). -/
def ConstantTimeCompare (x y : String) : Nat :=
  if x.data.length ≠ y.data.length then 0
  else if x.data = y.data then 1 else 0

/-- Go `strings.Join(elems, sep)`. -/
def Join : List String → String → String
  | [], _ => ""
  | [a], _ => a
  | a :: b :: rest, sep => a ++ sep ++ Join (b :: rest) sep

/-- The verb `%d` of `fmt.Sprintf` on a non-negative `int`. -/
def fmtInt (n : Nat) : String := toString n

/-! ## Data model -/

/-- OAuth record of an endpoint (`config.OAuthConfig`), fields as written in
`generateDefaultConfig`. -/
structure OAuthConfig where
  AccessToken : String
  RefreshToken : String
  ExpiresAt : Nat
  TokenURL : String
  ClientID : String
  Scopes : List String
  AutoRefresh : Bool
  deriving DecidableEq, Repr

/-- Runtime endpoint (`endpoint.Endpoint`): the fields the handler and the OAuth
callback read. `Available` is the runtime availability that `IsAvailable()`
reports. -/
structure Endpoint where
  Name : String
  Enabled : Bool
  Tags : List String
  Available : Bool
  OAuthConfig : Option OAuthConfig
  deriving DecidableEq, Repr

/-- Modelled from the spec: `(*Endpoint).IsAvailable` lives in the endpoint
package, which is not part of the sources at hand; the data model gives every
endpoint a runtime `available` boolean, which this method reports. -/
def Endpoint.IsAvailable (ep : Endpoint) : Bool := ep.Available

/-- Section `client_auth` of the configuration. -/
structure ClientAuthConfig where
  Enabled : Bool
  RequiredToken : String
  deriving DecidableEq, Repr

/-! ## handler.go: tag matching -/

/-- The first loop of `endpointMatchesTags`: `epTagSet[tag] = true` for each tag. -/
def buildTagSet (tags : List String) : StringSet :=
  tags.foldl (fun m tag => m.set tag true) StringSet.make

/-- The second loop of `endpointMatchesTags`: return `false` at the first
required tag absent from the set, `true` when the loop ends. -/
def allRequired (epTagSet : StringSet) : List String → Bool
  | [] => true
  | required :: rest => if !epTagSet required then false else allRequired epTagSet rest

/-- Embedding of `(*Server).endpointMatchesTags`. -/
def endpointMatchesTags (ep : Endpoint) (requestTags : List String) : Bool :=
  if requestTags.length = 0 then
    decide (ep.Tags.length = 0)
  else
    allRequired (buildTagSet ep.Tags) requestTags

/-! ## handler.go: inbound bearer authentication -/

/-- The constant `bearerPrefix` of `validateClientAuth`. -/
def bearerPrefix : String := "Bearer "

/-- Embedding of `(*Server).validateClientAuth`: `none` is the `nil` error,
`some msg` the error built by `fmt.Errorf`. The arguments are the
`client_auth` section of `s.config` and the value of the `Authorization`
header (`""` when the header is absent). -/
def validateClientAuth (cfg : ClientAuthConfig) (authHeader : String) : Option String :=
  if !cfg.Enabled then none
  else if cfg.RequiredToken = "" then
    some "server configuration error: client authentication is enabled but no token is configured"
  else if authHeader = "" then
    some "missing Authorization header"
  else if !HasPrefix authHeader bearerPrefix then
    some "invalid Authorization header format, expected: Bearer <token>"
  else
    let token := sliceFrom authHeader bearerPrefix.data.length
    if token = "" then
      some "empty token in Authorization header"
    else
      let expectedToken := cfg.RequiredToken
      if ConstantTimeCompare token expectedToken ≠ 1 then
        some "invalid authentication token"
      else none

/-! ## handler.go: diagnostic for an empty candidate list -/

/-- Go `strings.Contains(s, sub)`. -/
def Contains (s sub : String) : Prop := sub.data <:+: s.data

/-- The four counters of the tagged branch of
`generateDetailedEndpointUnavailableMessage`. -/
structure TaggedCounts where
  taggedActiveCount : Nat
  taggedTotalCount : Nat
  universalActiveCount : Nat
  universalTotalCount : Nat
  deriving DecidableEq, Repr

/-- One iteration of the loop of the tagged branch. -/
def taggedStep (requestTags : List String) (c : TaggedCounts) (ep : Endpoint) : TaggedCounts :=
  if !ep.Enabled then c
  else if ep.Tags.length = 0 then
    let c1 := { c with universalTotalCount := c.universalTotalCount + 1 }
    if ep.IsAvailable then { c1 with universalActiveCount := c1.universalActiveCount + 1 } else c1
  else if endpointMatchesTags ep requestTags then
    let c1 := { c with taggedTotalCount := c.taggedTotalCount + 1 }
    if ep.IsAvailable then { c1 with taggedActiveCount := c1.taggedActiveCount + 1 } else c1
  else c

/-- The three variables of the untagged branch of
`generateDetailedEndpointUnavailableMessage`. -/
structure UntaggedCounts where
  universalActiveCount : Nat
  universalTotalCount : Nat
  allEndpointsAreTagged : Bool
  deriving DecidableEq, Repr

/-- One iteration of the loop of the untagged branch. -/
def untaggedStep (c : UntaggedCounts) (ep : Endpoint) : UntaggedCounts :=
  if !ep.Enabled then c
  else if ep.Tags.length = 0 then
    let c1 := { c with universalTotalCount := c.universalTotalCount + 1,
                       allEndpointsAreTagged := false }
    if ep.IsAvailable then { c1 with universalActiveCount := c1.universalActiveCount + 1 } else c1
  else c

/-- The sentence appended to the untagged diagnostic. -/
def taggingHint : String :=
  ". All endpoints are tagged but request is not tagged, make sure you understand how tags works"

/-- Embedding of `(*Server).generateDetailedEndpointUnavailableMessage`;
`allEndpoints` is the value of `s.endpointManager.GetAllEndpoints()`. -/
def generateDetailedEndpointUnavailableMessage (allEndpoints : List Endpoint)
    (requestID : String) (requestTags : List String) : String :=
  if requestTags.length > 0 then
    let c := allEndpoints.foldl (taggedStep requestTags) ⟨0, 0, 0, 0⟩
    "request " ++ requestID ++ " with tag (" ++ Join requestTags ", " ++ ") had failed on "
      ++ fmtInt c.taggedActiveCount ++ " active out of " ++ fmtInt c.taggedTotalCount
      ++ " (with tags) and " ++ fmtInt c.universalActiveCount ++ " active of "
      ++ fmtInt c.universalTotalCount ++ " (universal) endpoints"
  else
    let c := allEndpoints.foldl untaggedStep ⟨0, 0, true⟩
    let message := "request " ++ requestID ++ " without tag had failed on "
      ++ fmtInt c.universalActiveCount ++ " active of " ++ fmtInt c.universalTotalCount
      ++ " (universal) endpoints"
    if c.allEndpointsAreTagged && c.universalTotalCount == 0 then
      message ++ taggingHint
    else message

/-! ## handler.go: the request handler -/

/-- A request after tagging (`tagging.TaggedRequest`): the handler reads its
`Tags`. -/
structure TaggedRequest where
  Tags : List String
  deriving DecidableEq, Repr

/-- What `handleProxy` reads from the gin context of one inbound request. -/
structure Inbound where
  requestID : String
  startTime : Nat
  path : String
  authHeader : String
  deriving DecidableEq, Repr

/-- The answers of the collaborators that `handleProxy` calls and whose code
is outside `handler.go`; each is called at most once per request. A `*T` that
may be `nil` is an `Option`, an `error` result is `Except`. -/
structure Collaborators where
  readRequestBody : Except String String
  extractModelFromRequest : String → String
  ExtractThinkingInfo : String → Option String
  processRequestTags : Option TaggedRequest
  selectEndpointForRequest : Option TaggedRequest → Except String Endpoint
  tryProxyRequest : Endpoint → String → String → Nat → String → Option TaggedRequest → Nat →
    Bool × Bool

/-- The observable steps of `handleProxy`, in program order. The value stored
under `thinking_info` is not tracked. -/
inductive Event where
  | sendProxyError (status : Nat) (code message requestID : String)
  | readRequestBody
  | ctxSet (key : String) (value : Option String)
  | logDebug (message : String)
  | processRequestTags
  | selectEndpointForRequest (taggedRequest : Option TaggedRequest)
  | logError (message : String) (err : String)
  | sendFailureResponse (requestID : String) (startTime : Nat) (requestBody : String)
      (tags : List String) (attemptNumber : Nat) (errorMsg code : String)
  | tryProxyRequest (ep : Endpoint) (requestBody requestID : String) (startTime : Nat)
      (path : String) (taggedRequest : Option TaggedRequest) (attemptNumber : Nat)
  | fallbackToOtherEndpoints (path requestBody requestID : String) (startTime : Nat)
      (failedEndpoint : Endpoint) (taggedRequest : Option TaggedRequest)
  deriving DecidableEq, Repr

/-- An event that sends a response to the client from `handleProxy` itself. -/
def Event.isResponse : Event → Bool
  | .sendProxyError .. => true
  | .sendFailureResponse .. => true
  | _ => false

/-- An event that hands the request to an upstream attempt. -/
def Event.isUpstream : Event → Bool
  | .tryProxyRequest .. => true
  | .fallbackToOtherEndpoints .. => true
  | _ => false

/-- The constants `http.StatusUnauthorized` and `http.StatusBadRequest`. -/
def StatusUnauthorized : Nat := 401
def StatusBadRequest : Nat := 400

/-- The `debug` log line of a failed `ExtractThinkingInfo`, none on success. -/
def thinkingLog : Option String → List Event
  | some _ => [Event.logDebug "Failed to extract thinking info"]
  | none => []

/-- Lines 58 to 61 of `handleProxy`: `tags` stays `nil` when `taggedRequest` is
`nil`, and is `taggedRequest.Tags` otherwise. -/
def requestTagsOf : Option TaggedRequest → List String
  | some tr => tr.Tags
  | none => []

/-- Embedding of `(*Server).handleProxy` as the list of its steps.
`clientAuth` is `s.config.ClientAuth`, `allEndpoints` the endpoints of
`s.endpointManager`. -/
def handleProxy (clientAuth : ClientAuthConfig) (allEndpoints : List Endpoint)
    (env : Collaborators) (c : Inbound) : List Event :=
  match validateClientAuth clientAuth c.authHeader with
  | some err =>
    [Event.sendProxyError StatusUnauthorized "client_auth_required" err c.requestID]
  | none =>
    match env.readRequestBody with
    | .error _ =>
      [Event.readRequestBody,
       Event.sendProxyError StatusBadRequest "request_body_error" "Failed to read request body"
         c.requestID]
    | .ok requestBody =>
      let originalModel := env.extractModelFromRequest requestBody
      let taggedRequest := env.processRequestTags
      let pre : List Event :=
        [Event.readRequestBody, Event.ctxSet "original_model" (some originalModel)]
          ++ thinkingLog (env.ExtractThinkingInfo requestBody)
          ++ [Event.ctxSet "thinking_info" none, Event.processRequestTags,
              Event.selectEndpointForRequest taggedRequest]
      match env.selectEndpointForRequest taggedRequest with
      | .error err =>
        let tags : List String := requestTagsOf taggedRequest
        let errorMsg := generateDetailedEndpointUnavailableMessage allEndpoints c.requestID tags
        pre ++ [Event.logError "Failed to select endpoint" err,
                Event.sendFailureResponse c.requestID c.startTime requestBody tags 0 errorMsg
                  "no_available_endpoints"]
      | .ok selectedEndpoint =>
        let r := env.tryProxyRequest selectedEndpoint requestBody c.requestID c.startTime c.path
          taggedRequest 1
        let attempt := Event.tryProxyRequest selectedEndpoint requestBody c.requestID c.startTime
          c.path taggedRequest 1
        if r.1 then pre ++ [attempt]
        else if r.2 then
          pre ++ [attempt,
                  Event.fallbackToOtherEndpoints c.path requestBody c.requestID c.startTime
                    selectedEndpoint taggedRequest]
        else pre ++ [attempt]

/-! ## config: the configuration record -/

/-- Section `server`. -/
structure ServerConfig where
  Host : String
  Port : Nat
  deriving DecidableEq, Repr

/-- One entry of `endpoints`, fields as written in `generateDefaultConfig`. -/
structure EndpointConfig where
  Name : String
  URL : String
  EndpointType : String
  PathPrefix : String
  AuthType : String
  AuthValue : String
  Enabled : Bool
  Priority : Nat
  Tags : List String
  OAuthConfig : Option OAuthConfig
  deriving DecidableEq, Repr

/-- Section `logging`. -/
structure LoggingConfig where
  Level : String
  LogRequestTypes : String
  LogRequestBody : String
  LogResponseBody : String
  LogDirectory : String
  deriving DecidableEq, Repr

/-- Section `validation`; its fields are declared outside the sources at hand
and are carried as uninterpreted key and value pairs. -/
structure ValidationConfig where
  Settings : List (String × String)
  deriving DecidableEq, Repr

/-- One entry of `tagging.taggers`, carried uninterpreted like
`ValidationConfig`. -/
structure TaggerConfig where
  Settings : List (String × String)
  deriving DecidableEq, Repr

/-- Section `tagging`. -/
structure TaggingConfig where
  PipelineTimeout : String
  Taggers : List TaggerConfig
  deriving DecidableEq, Repr

/-- Section `timeouts`. -/
structure TimeoutConfig where
  TLSHandshake : String
  ResponseHeader : String
  IdleConnection : String
  HealthCheckTimeout : String
  CheckInterval : String
  deriving DecidableEq, Repr

/-- Section `auth`. -/
structure AuthConfig where
  Enabled : Bool
  Username : String
  Password : String
  SessionTimeout : String
  deriving DecidableEq, Repr

/-- The configuration `config.Config`. -/
structure Config where
  Server : ServerConfig
  Endpoints : List EndpointConfig
  Logging : LoggingConfig
  Validation : ValidationConfig
  Tagging : TaggingConfig
  Timeouts : TimeoutConfig
  Auth : AuthConfig
  ClientAuth : ClientAuthConfig
  deriving DecidableEq, Repr

/-! ## loading.go: SaveConfig over an explicit filesystem -/

/-- The filesystem: the content stored at each path, `none` where no file
exists. -/
abbrev FileSystem := String → Option String

/-- How a call of `os.WriteFile` ends: success, an error before the file is
opened (nothing changes), or an error after it was created or truncated
(`residue` is what was written by then). -/
inductive WriteOutcome where
  | ok
  | failedBeforeOpen (err : String)
  | failedAfterOpen (err : String) (residue : String)
  deriving DecidableEq, Repr

/-- The answers of the operating system to the calls of one `SaveConfig`:
the error of `os.Rename` (`none` on success) and the outcome of
`os.WriteFile`. -/
structure OsAnswers where
  rename : Option String
  writeFile : WriteOutcome
  deriving DecidableEq, Repr

/-- Effect of a successful `os.Rename(old, new)`: the content moves to `new`,
replacing what was there, and `old` no longer exists. -/
def osRename (fs : FileSystem) (old new : String) : FileSystem :=
  fun p => if p = new then fs old else if p = old then none else fs p

/-- Effect of `os.WriteFile(name, data, 0644)` leaving `data` in the file. -/
def osWriteFile (fs : FileSystem) (name data : String) : FileSystem :=
  fun p => if p = name then some data else fs p

/-- Embedding of `config.SaveConfig`. `validateConfig` (declared outside the
sources at hand, taken as a check that returns its error) and `yamlMarshal`
(`yaml.Marshal`) are parameters. The result is the filesystem after the call
and the returned error (`none` for `nil`). `os.Stat` succeeds exactly when a
file exists at `filename`. -/
def SaveConfig (validateConfig : Config → Option String)
    (yamlMarshal : Config → Except String String) (os : OsAnswers)
    (config : Config) (filename : String) (fs : FileSystem) : FileSystem × Option String :=
  match validateConfig config with
  | some err => (fs, some ("invalid configuration: " ++ err))
  | none =>
    match yamlMarshal config with
    | .error err => (fs, some ("failed to marshal config: " ++ err))
    | .ok data =>
      if (fs filename).isSome then
        let backupFilename := filename ++ ".backup"
        match os.rename with
        | some err => (fs, some ("failed to create backup: " ++ err))
        | none =>
          let fs1 := osRename fs filename backupFilename
          match os.writeFile with
          | .failedBeforeOpen err => (fs1, some ("failed to write config file: " ++ err))
          | .failedAfterOpen err residue =>
            (osWriteFile fs1 filename residue, some ("failed to write config file: " ++ err))
          | .ok => (osWriteFile fs1 filename data, none)
      else
        match os.writeFile with
        | .failedBeforeOpen err => (fs, some ("failed to write config file: " ++ err))
        | .failedAfterOpen err residue =>
          (osWriteFile fs filename residue, some ("failed to write config file: " ++ err))
        | .ok => (osWriteFile fs filename data, none)

/-! ## server.go: the OAuth token refresh callback -/

/-- The fields of `proxy.Server` that the callback reads and writes. -/
structure ServerState where
  config : Config
  configFilePath : String
  deriving DecidableEq, Repr

/-- The loop of the callback: the first entry whose `Name` equals `ep.Name`
gets `ep.OAuthConfig`, then `break`. -/
def setOAuthConfig : List EndpointConfig → Endpoint → List EndpointConfig
  | [], _ => []
  | cfgEndpoint :: rest, ep =>
    if cfgEndpoint.Name = ep.Name then
      { cfgEndpoint with OAuthConfig := ep.OAuthConfig } :: rest
    else cfgEndpoint :: setOAuthConfig rest ep

/-- Embedding of `(*Server).saveConfigToFile`. -/
def saveConfigToFile (validateConfig : Config → Option String)
    (yamlMarshal : Config → Except String String) (os : OsAnswers)
    (s : ServerState) (fs : FileSystem) : FileSystem × Option String :=
  SaveConfig validateConfig yamlMarshal os s.config s.configFilePath fs

/-- Embedding of the function returned by
`(*Server).createOAuthTokenRefreshCallback`: the server state and the
filesystem after the call, and the returned error. -/
def oauthTokenRefreshCallback (validateConfig : Config → Option String)
    (yamlMarshal : Config → Except String String) (os : OsAnswers)
    (s : ServerState) (ep : Endpoint) (fs : FileSystem) :
    ServerState × FileSystem × Option String :=
  let s1 : ServerState :=
    { s with config := { s.config with Endpoints := setOAuthConfig s.config.Endpoints ep } }
  let r := saveConfigToFile validateConfig yamlMarshal os s1 fs
  (s1, r.1, r.2)

/-! ## loading.go: environment overrides -/

/-- Embedding of `config.applyEnvironmentOverrides`: the configuration after the
call and the returned error (always `nil`). `getenv` is `os.Getenv` (`""` for
an unset variable) and `defaultSessionTimeout` is the constant
`Default.Auth.SessionTimeout`, declared outside the sources at hand. -/
def applyEnvironmentOverrides (defaultSessionTimeout : String) (getenv : String → String)
    (config : Config) : Config × Option String :=
  let username := getenv "ADMIN_USERNAME"
  let c1 : Config :=
    if username ≠ "" then
      { config with Auth := { config.Auth with Username := username, Enabled := true } }
    else config
  let password := getenv "ADMIN_PASSWORD"
  let c2 : Config :=
    if password ≠ "" then
      { c1 with Auth := { c1.Auth with Password := password, Enabled := true } }
    else c1
  let c3 : Config :=
    if c2.Auth.Enabled && decide (c2.Auth.SessionTimeout = "") then
      { c2 with Auth := { c2.Auth with SessionTimeout := defaultSessionTimeout } }
    else c2
  (c3, none)

/-! ## token.go: client authentication token -/

/-- The table `hextable` of `encoding/hex`. -/
def hextable : String := "0123456789abcdef"

/-- The byte `hextable[n]`. -/
def hexDigit (n : Nat) : Char := hextable.data.getD n '0'

/-- Go `hex.EncodeToString(src)` on the bytes `src`: for each byte `v` the two
characters `hextable[v>>4]` and `hextable[v&0x0f]`. -/
def encodeBytes : List Nat → List Char
  | [] => []
  | v :: rest => hexDigit (v >>> 4) :: hexDigit (v &&& 0x0f) :: encodeBytes rest

/-- Go `hex.EncodeToString`. -/
def EncodeToString (src : List Nat) : String := String.mk (encodeBytes src)

/-- The function `fromHexChar` of `encoding/hex`. -/
def fromHexChar (c : Char) : Option Nat :=
  if '0'.toNat ≤ c.toNat ∧ c.toNat ≤ '9'.toNat then some (c.toNat - '0'.toNat)
  else if 'a'.toNat ≤ c.toNat ∧ c.toNat ≤ 'f'.toNat then some (c.toNat - 'a'.toNat + 10)
  else if 'A'.toNat ≤ c.toNat ∧ c.toNat ≤ 'F'.toNat then some (c.toNat - 'A'.toNat + 10)
  else none

/-- Go `hex.DecodeString` on the characters of its argument: every pair of hex
digits gives the byte `(a << 4) | b`; an invalid digit or an odd length is an
error (`none`). -/
def decodeChars : List Char → Option (List Nat)
  | [] => some []
  | [_] => none
  | p :: q :: rest =>
    match fromHexChar p, fromHexChar q, decodeChars rest with
    | some a, some b, some bytes => some (((a <<< 4) ||| b) :: bytes)
    | _, _, _ => none

/-- Go `hex.DecodeString`. -/
def DecodeString (s : String) : Option (List Nat) := decodeChars s.data

/-- Embedding of `utils.GenerateClientAuthToken`. `randRead` is the outcome of
`rand.Read` on the 24-byte buffer: its error, or the bytes it stored. -/
def GenerateClientAuthToken (randRead : Except String (List Nat)) : Except String String :=
  match randRead with
  | .error err => .error ("failed to generate random bytes: " ++ err)
  | .ok randomBytes =>
    let randomHex := EncodeToString randomBytes
    let token := "sk-" ++ randomHex
    .ok token

/-! ## auth.go: credentials -/

/-- The two functions of `golang.org/x/crypto/bcrypt` that `auth.go` calls,
taken as an abstract pair: `GenerateFromPassword` returns a hash or an error,
and `CompareHashAndPassword hash password` is true when the Go function
returns a `nil` error. -/
structure Bcrypt where
  GenerateFromPassword : String → Except String String
  CompareHashAndPassword : String → String → Bool

/-- The fields of `security.AuthManager` that hold credentials (the session
manager is left out). -/
structure AuthManager where
  username : String
  passwordHash : String
  enabled : Bool
  deriving DecidableEq, Repr

/-- Embedding of `security.NewAuthManager`. -/
def NewAuthManager (b : Bcrypt) (username password : String) (enabled : Bool) : AuthManager :=
  let passwordHash : String :=
    if password ≠ "" then
      match b.GenerateFromPassword password with
      | .error _ => ""
      | .ok hash => hash
    else ""
  { username := username, passwordHash := passwordHash, enabled := enabled }

/-- Embedding of `(*AuthManager).constantTimeStringCompare`. -/
def constantTimeStringCompare (a b : String) : Bool :=
  decide (ConstantTimeCompare a b = 1)

/-- Embedding of `(*AuthManager).ValidateCredentials`. -/
def ValidateCredentials (b : Bcrypt) (am : AuthManager) (username password : String) : Bool :=
  if !am.enabled then true
  else if !constantTimeStringCompare username am.username then false
  else if am.passwordHash = "" then false
  else b.CompareHashAndPassword am.passwordHash password

/-- Embedding of `(*AuthManager).UpdateCredentials`: the manager after the call
and the returned error. -/
def UpdateCredentials (b : Bcrypt) (am : AuthManager) (username password : String)
    (enabled : Bool) : AuthManager × Option String :=
  if password ≠ "" then
    match b.GenerateFromPassword password with
    | .error err => (am, some err)
    | .ok hash => ({ username := username, passwordHash := hash, enabled := enabled }, none)
  else ({ username := username, passwordHash := "", enabled := enabled }, none)

/-! ## server.go: hot update of the configuration -/

/-- The fields of `proxy.Server` that `HotUpdateConfig` reads and writes.
`endpointManager` is the list of endpoints held by the manager, `validator`
numbers the `ResponseValidator` objects allocated so far (the current one is
the last), and `logs` are the lines written through `s.logger`. -/
structure Server where
  config : Config
  endpointManager : List Endpoint
  validator : Nat
  authManager : AuthManager
  logs : List String
  deriving DecidableEq, Repr

/-- Embedding of `(*Server).validateConfigForHotUpdate`. -/
def validateConfigForHotUpdate (s : Server) (newConfig : Config) : Option String :=
  if newConfig.Server.Host ≠ s.config.Server.Host then
    some "server host cannot be changed via hot update"
  else if newConfig.Server.Port ≠ s.config.Server.Port then
    some "server port cannot be changed via hot update"
  else if newConfig.Endpoints.length = 0 then
    some "at least one endpoint must be configured"
  else none

/-- Embedding of `(*Server).updateEndpoints`; `UpdateEndpoints` is the method of
the endpoint manager, declared outside the sources at hand. -/
def updateEndpoints (UpdateEndpoints : List Endpoint → List EndpointConfig → List Endpoint)
    (s : Server) (newEndpoints : List EndpointConfig) : Server × Option String :=
  ({ s with endpointManager := UpdateEndpoints s.endpointManager newEndpoints }, none)

/-- Embedding of `(*Server).updateLoggingConfig`. -/
def updateLoggingConfig (s : Server) (newLogging : LoggingConfig) : Server × Option String :=
  if newLogging.LogDirectory ≠ s.config.Logging.LogDirectory then
    (s, some "log directory cannot be changed via hot update")
  else
    ({ s with config := { s.config with Logging :=
        { s.config.Logging with
          Level := newLogging.Level,
          LogRequestTypes := newLogging.LogRequestTypes,
          LogRequestBody := newLogging.LogRequestBody,
          LogResponseBody := newLogging.LogResponseBody } } }, none)

/-- Embedding of `(*Server).updateValidatorConfig`. -/
def updateValidatorConfig (s : Server) (newValidation : ValidationConfig) : Server :=
  { s with validator := s.validator + 1,
           config := { s.config with Validation := newValidation } }

/-- Embedding of `(*Server).updateAuthConfig`. -/
def updateAuthConfig (b : Bcrypt) (s : Server) (newAuthConfig : AuthConfig) :
    Server × Option String :=
  let r := UpdateCredentials b s.authManager newAuthConfig.Username newAuthConfig.Password
    newAuthConfig.Enabled
  ({ s with authManager := r.1 }, r.2)

/-- The line of `s.logger.Error(msg, err)` when `err` is not `nil`. -/
def logIfError (s : Server) (msg : String) : Option String → Server
  | some err => { s with logs := s.logs ++ [msg ++ ": " ++ err] }
  | none => s

/-- Embedding of `(*Server).HotUpdateConfig`: the server after the call and the
returned error. -/
def HotUpdateConfig (b : Bcrypt)
    (UpdateEndpoints : List Endpoint → List EndpointConfig → List Endpoint)
    (s : Server) (newConfig : Config) : Server × Option String :=
  match validateConfigForHotUpdate s newConfig with
  | some err => (s, some ("invalid configuration: " ++ err))
  | none =>
    let s1 : Server := { s with logs := s.logs ++ ["Starting configuration hot update"] }
    match updateEndpoints UpdateEndpoints s1 newConfig.Endpoints with
    | (s2, some err) => (s2, some ("failed to update endpoints: " ++ err))
    | (s2, none) =>
      let r3 := updateLoggingConfig s2 newConfig.Logging
      let s3 := logIfError r3.1
        "Failed to update logging config, continuing with endpoint updates" r3.2
      let s4 := updateValidatorConfig s3 newConfig.Validation
      let r5 := updateAuthConfig b s4 newConfig.Auth
      let s5 := logIfError r5.1
        "Failed to update auth config, continuing with other updates" r5.2
      let s6 : Server := { s5 with config := newConfig }
      ({ s6 with logs := s6.logs ++ ["Configuration hot update completed successfully"] }, none)

/-- A sequence of `HotUpdateConfig` calls, each on the server left by the one
before. -/
def HotUpdateConfigs (b : Bcrypt)
    (UpdateEndpoints : List Endpoint → List EndpointConfig → List Endpoint)
    (s : Server) (newConfigs : List Config) : Server :=
  newConfigs.foldl (fun st newConfig => (HotUpdateConfig b UpdateEndpoints st newConfig).1) s

/-! ## auth_handlers.go: redirect after login -/

/-- The fields of `url.URL` that `isValidRedirectURL` reads. -/
structure URL where
  Scheme : String
  Host : String
  Path : String
  deriving DecidableEq, Repr

/-- Go `(*URL).IsAbs`: `u.Scheme != ""`. -/
def URL.IsAbs (u : URL) : Bool := decide (u.Scheme ≠ "")

/-- Go slice expression `s[:n]`; `none` is the run-time panic when `n` exceeds
`len(s)`. -/
def sliceTo (s : String) (n : Nat) : Option String :=
  if n ≤ s.data.length then some (String.mk (s.data.take n)) else none

/-- Embedding of `web.isAdminPath`, with the short-circuit evaluation of `||`
and `&&`; `none` is a panic of the slice expression. -/
def isAdminPath (path : String) : Option Bool :=
  if path = "/admin" then some true
  else if path = "/admin/" then some true
  else if path.data.length > 6 then
    match sliceTo path 7 with
    | some p => some (decide (p = "/admin/"))
    | none => none
  else some false

/-- Embedding of `(*AdminServer).isValidRedirectURL`; `urlParse` is `url.Parse`
of `net/url`. -/
def isValidRedirectURL (urlParse : String → Except String URL) (redirectURL : String) :
    Option Bool :=
  if redirectURL = "" then some false
  else
    match urlParse redirectURL with
    | .error _ => some false
    | .ok parsedURL =>
      if parsedURL.IsAbs then some false
      else
        match isAdminPath parsedURL.Path with
        | none => none
        | some ok => if !ok then some false else some true

/-- The posted login form. -/
structure LoginForm where
  csrfToken : String
  username : String
  password : String
  redirectTo : String
  deriving DecidableEq, Repr

/-- The observable steps of `handleLoginSubmit`. -/
inductive LoginEvent where
  | redirect (status : Nat) (location : String)
  | redirectWithError (errorMsg errorKey : String)
  | createSession (username : String)
  | setSessionCookie (sessionID : String)
  deriving DecidableEq, Repr

/-- The constant `http.StatusFound`. -/
def StatusFound : Nat := 302

/-- Embedding of `(*AdminServer).handleLoginSubmit` as the list of its steps
(`none` is a panic). `ValidateToken` is the CSRF check and `sessionID` the `ID`
of the session that `CreateSession` returns. -/
def handleLoginSubmit (b : Bcrypt) (urlParse : String → Except String URL)
    (am : AuthManager) (ValidateToken : String → Bool) (sessionID : String)
    (form : LoginForm) : Option (List LoginEvent) :=
  if !am.enabled then some [LoginEvent.redirect StatusFound "/admin/"]
  else if !ValidateToken form.csrfToken then
    some [LoginEvent.redirectWithError "CSRF token invalid" "csrf_invalid"]
  else if form.username = "" ∨ form.password = "" then
    some [LoginEvent.redirectWithError "用户名和密码不能为空" "empty_credentials"]
  else if !ValidateCredentials b am form.username form.password then
    some [LoginEvent.redirectWithError "用户名或密码错误" "invalid_credentials"]
  else
    let redirectTo1 := if form.redirectTo = "" then "/admin/" else form.redirectTo
    match isValidRedirectURL urlParse redirectTo1 with
    | none => none
    | some valid =>
      let redirectTo2 := if !valid then "/admin/" else redirectTo1
      some [LoginEvent.createSession form.username, LoginEvent.setSessionCookie sessionID,
            LoginEvent.redirect StatusFound redirectTo2]

/-! ## Lemmas: tag matching -/

theorem buildTagSet_foldl_apply (tags : List String) (m : StringSet) (x : String) :
    (tags.foldl (fun m tag => m.set tag true) m) x = (m x || decide (x ∈ tags)) := by
  induction tags generalizing m with
  | nil => simp
  | cons t ts ih =>
    simp only [List.foldl_cons, ih, StringSet.set, List.mem_cons]
    by_cases h : x = t
    · simp [h]
    · simp [h]

theorem buildTagSet_apply (tags : List String) (x : String) :
    buildTagSet tags x = decide (x ∈ tags) := by
  simp [buildTagSet, buildTagSet_foldl_apply, StringSet.make]

theorem allRequired_iff (m : StringSet) (req : List String) :
    allRequired m req = true ↔ ∀ t ∈ req, m t = true := by
  induction req with
  | nil => simp [allRequired]
  | cons r rs ih =>
    by_cases h : m r = true
    · simp [allRequired, h, ih]
    · simp [allRequired, h]

/-! ## Lemmas: strings -/

theorem HasPrefix_iff (s p : String) :
    HasPrefix s p = true ↔ ∃ t : String, s = p ++ t := by
  constructor
  · intro h
    simp only [HasPrefix, Bool.and_eq_true, decide_eq_true_eq] at h
    refine ⟨String.mk (s.data.drop p.data.length), ?_⟩
    apply String.ext
    simp only [String.data_append]
    have hs : s.data = s.data.take p.data.length ++ s.data.drop p.data.length :=
      (List.take_append_drop _ _).symm
    rw [h.2] at hs
    exact hs
  · rintro ⟨t, rfl⟩
    simp [HasPrefix]

theorem sliceFrom_append (p t : String) : sliceFrom (p ++ t) p.data.length = t := by
  apply String.ext
  simp [sliceFrom]

theorem ConstantTimeCompare_eq_one (x y : String) :
    ConstantTimeCompare x y = 1 ↔ x = y := by
  unfold ConstantTimeCompare
  constructor
  · intro h
    split at h
    · simp at h
    · split at h
      · exact String.ext (by assumption)
      · simp at h
  · rintro rfl
    simp

/-! ## Lemmas: the diagnostic counters -/

theorem endpointMatchesTags_of_ne_nil (ep : Endpoint) (T : List String) (hT : T ≠ []) :
    endpointMatchesTags ep T = decide (∀ t ∈ T, t ∈ ep.Tags) := by
  have hlen : ¬ T.length = 0 := by simpa using hT
  have h : endpointMatchesTags ep T = true ↔ ∀ t ∈ T, t ∈ ep.Tags := by
    simp [endpointMatchesTags, hlen, allRequired_iff, buildTagSet_apply]
  by_cases hall : ∀ t ∈ T, t ∈ ep.Tags
  · rw [h.mpr hall, decide_eq_true hall]
  · have hf : endpointMatchesTags ep T = false := by
      cases hb : endpointMatchesTags ep T with
      | false => rfl
      | true => exact absurd (h.mp hb) hall
    rw [hf, decide_eq_false hall]

theorem foldl_taggedStep (T : List String) (hT : T ≠ []) (eps : List Endpoint)
    (c : TaggedCounts) :
    eps.foldl (taggedStep T) c =
      ⟨c.taggedActiveCount + eps.countP (fun ep => ep.Enabled && decide (ep.Tags ≠ []) &&
          decide (∀ t ∈ T, t ∈ ep.Tags) && ep.IsAvailable),
       c.taggedTotalCount + eps.countP (fun ep => ep.Enabled && decide (ep.Tags ≠ []) &&
          decide (∀ t ∈ T, t ∈ ep.Tags)),
       c.universalActiveCount + eps.countP (fun ep => ep.Enabled && decide (ep.Tags = []) &&
          ep.IsAvailable),
       c.universalTotalCount + eps.countP (fun ep => ep.Enabled && decide (ep.Tags = []))⟩ := by
  induction eps generalizing c with
  | nil => simp
  | cons ep rest ih =>
    rw [List.foldl_cons, ih]
    simp only [List.countP_cons]
    unfold taggedStep
    rw [endpointMatchesTags_of_ne_nil ep T hT]
    cases hen : ep.Enabled
    · simp
    · by_cases htags : ep.Tags = []
      · cases hav : ep.IsAvailable <;> simp [htags, hav, Nat.add_assoc, Nat.add_comm]
      · have hlen : ¬ ep.Tags.length = 0 := by simpa using htags
        by_cases hall : ∀ t ∈ T, t ∈ ep.Tags
        · have hd : decide (∀ t ∈ T, t ∈ ep.Tags) = true := decide_eq_true hall
          rw [hd]
          cases hav : ep.IsAvailable <;>
            simp [htags, hlen, Nat.add_assoc, Nat.add_comm]
        · have hd : decide (∀ t ∈ T, t ∈ ep.Tags) = false := decide_eq_false hall
          rw [hd]
          simp [htags, hlen]

theorem foldl_untaggedStep (eps : List Endpoint) (c : UntaggedCounts) :
    eps.foldl untaggedStep c =
      ⟨c.universalActiveCount + eps.countP (fun ep => ep.Enabled && decide (ep.Tags = []) &&
          ep.IsAvailable),
       c.universalTotalCount + eps.countP (fun ep => ep.Enabled && decide (ep.Tags = [])),
       c.allEndpointsAreTagged && decide (∀ ep ∈ eps, ep.Enabled = true → ep.Tags ≠ [])⟩ := by
  induction eps generalizing c with
  | nil => simp
  | cons ep rest ih =>
    rw [List.foldl_cons, ih]
    simp only [List.countP_cons]
    unfold untaggedStep
    cases hen : ep.Enabled
    · simp [hen]
    · by_cases htags : ep.Tags = []
      · cases hav : ep.IsAvailable <;> simp [hen, htags, hav, Nat.add_assoc, Nat.add_comm]
      · have hlen : ¬ ep.Tags.length = 0 := by simpa using htags
        simp [hen, htags, hlen]

theorem countP_universal_eq_zero (eps : List Endpoint)
    (h : ∀ ep ∈ eps, ep.Enabled = true → ep.Tags ≠ []) :
    eps.countP (fun ep => ep.Enabled && decide (ep.Tags = [])) = 0 := by
  rw [List.countP_eq_zero]
  intro ep hep
  specialize h ep hep
  cases hen : ep.Enabled
  · simp
  · simp [h hen]

theorem foldl_taggedStep_filter (T : List String) (eps : List Endpoint) (c : TaggedCounts) :
    (eps.filter (fun ep => ep.Enabled)).foldl (taggedStep T) c = eps.foldl (taggedStep T) c := by
  induction eps generalizing c with
  | nil => rfl
  | cons ep rest ih =>
    cases hen : ep.Enabled
    · simp [List.filter_cons, hen, taggedStep, ih]
    · simp [List.filter_cons, hen, ih]

theorem foldl_untaggedStep_filter (eps : List Endpoint) (c : UntaggedCounts) :
    (eps.filter (fun ep => ep.Enabled)).foldl untaggedStep c = eps.foldl untaggedStep c := by
  induction eps generalizing c with
  | nil => rfl
  | cons ep rest ih =>
    cases hen : ep.Enabled
    · simp [List.filter_cons, hen, untaggedStep, ih]
    · simp [List.filter_cons, hen, ih]

theorem String_append_ne_self (a b : String) (hb : b ≠ "") : a ++ b ≠ a := by
  intro h
  have hd := congrArg String.data h
  simp only [String.data_append, List.append_right_eq_self] at hd
  exact hb (String.ext hd)

theorem filter_isUpstream_thinkingLog (o : Option String) :
    (thinkingLog o).filter Event.isUpstream = [] := by
  cases o <;> rfl

theorem filter_isResponse_thinkingLog (o : Option String) :
    (thinkingLog o).filter Event.isResponse = [] := by
  cases o <;> rfl

theorem Contains_append_right (s t sub : String) (h : Contains s sub) :
    Contains (s ++ t) sub := by
  obtain ⟨a, b, hab⟩ := h
  exact ⟨a, b ++ t.data, by simp [String.data_append, ← hab]⟩

theorem Contains_append_self (a sub : String) : Contains (a ++ sub) sub :=
  ⟨a.data, [], by simp [String.data_append]⟩

theorem generateDetailed_contains_id (eps : List Endpoint) (requestID : String)
    (T : List String) :
    Contains (generateDetailedEndpointUnavailableMessage eps requestID T) requestID := by
  unfold generateDetailedEndpointUnavailableMessage
  split
  · iterate 11 apply Contains_append_right
    exact Contains_append_self _ _
  · simp only
    split
    · iterate 6 apply Contains_append_right
      exact Contains_append_self _ _
    · iterate 5 apply Contains_append_right
      exact Contains_append_self _ _

theorem not_upstream_mem_thinkingLog (o : Option String) (e : Event)
    (he : e.isUpstream = true) : e ∉ thinkingLog o := by
  cases o with
  | none => simp [thinkingLog]
  | some m =>
    simp only [thinkingLog, List.mem_singleton]
    rintro rfl
    simp [Event.isUpstream] at he

theorem handleProxy_selected_trace (clientAuth : ClientAuthConfig) (eps : List Endpoint)
    (env : Collaborators) (c : Inbound) (body : String) (ep : Endpoint)
    (hauth : validateClientAuth clientAuth c.authHeader = none)
    (hbody : env.readRequestBody = .ok body)
    (hsel : env.selectEndpointForRequest env.processRequestTags = .ok ep) :
    handleProxy clientAuth eps env c =
      [Event.readRequestBody,
        Event.ctxSet "original_model" (some (env.extractModelFromRequest body))]
        ++ thinkingLog (env.ExtractThinkingInfo body)
        ++ [Event.ctxSet "thinking_info" none, Event.processRequestTags,
            Event.selectEndpointForRequest env.processRequestTags]
        ++ (Event.tryProxyRequest ep body c.requestID c.startTime c.path
              env.processRequestTags 1 ::
            (if (env.tryProxyRequest ep body c.requestID c.startTime c.path
                  env.processRequestTags 1).1 = false ∧
                (env.tryProxyRequest ep body c.requestID c.startTime c.path
                  env.processRequestTags 1).2 = true then
              [Event.fallbackToOtherEndpoints c.path body c.requestID c.startTime ep
                env.processRequestTags]
             else [])) := by
  unfold handleProxy
  rw [hauth]
  simp only [hbody, hsel]
  generalize env.tryProxyRequest ep body c.requestID c.startTime c.path
    env.processRequestTags 1 = r
  rcases r with ⟨_ | _, _ | _⟩ <;> simp

/-! ## Lemmas: the OAuth callback -/

theorem setOAuthConfig_length (l : List EndpointConfig) (ep : Endpoint) :
    (setOAuthConfig l ep).length = l.length := by
  induction l with
  | nil => rfl
  | cons c rest ih =>
    by_cases hc : c.Name = ep.Name
    · simp [setOAuthConfig, hc]
    · simp [setOAuthConfig, hc, ih]

theorem setOAuthConfig_getElem? (l : List EndpointConfig) (ep : Endpoint) (i : Nat) :
    (setOAuthConfig l ep)[i]? =
      (l[i]?).map (fun c =>
        if i = l.findIdx (fun c => decide (c.Name = ep.Name)) then
          { c with OAuthConfig := ep.OAuthConfig }
        else c) := by
  induction l generalizing i with
  | nil => simp [setOAuthConfig]
  | cons c rest ih =>
    by_cases hc : c.Name = ep.Name
    · cases i with
      | zero => simp [setOAuthConfig, hc, List.findIdx_cons]
      | succ j =>
        simp only [setOAuthConfig, hc, if_true, List.getElem?_cons_succ, List.findIdx_cons,
          decide_True, cond_true]
        cases rest[j]? <;> simp
    · cases i with
      | zero => simp [setOAuthConfig, hc, List.findIdx_cons]
      | succ j =>
        simp only [setOAuthConfig, hc, if_false, List.getElem?_cons_succ, List.findIdx_cons,
          decide_False, cond_false, ih j, Nat.add_right_cancel_iff]

/-! ## Lemmas: hexadecimal encoding -/

theorem hexDigit_mem_hextable : ∀ n < 16, hexDigit n ∈ hextable.data := by
  decide

theorem fromHexChar_hexDigit : ∀ n < 16, fromHexChar (hexDigit n) = some n := by
  decide

theorem byte_nibbles (v : Nat) (hv : v < 256) :
    v >>> 4 < 16 ∧ v &&& 0x0f < 16 ∧ ((v >>> 4) <<< 4) ||| (v &&& 0x0f) = v := by
  have h1 : v >>> 4 = v / 16 := by rw [Nat.shiftRight_eq_div_pow]
  have h2 : v &&& 0x0f = v % 16 := Nat.and_pow_two_sub_one_eq_mod v 4
  have h3 : v / 16 < 16 := by omega
  have h4 : v % 16 < 16 := Nat.mod_lt _ (by decide)
  refine ⟨by rw [h1]; exact h3, by rw [h2]; exact h4, ?_⟩
  rw [h1, h2, Nat.shiftLeft_eq]
  have h5 : v / 16 * 2 ^ 4 ||| v % 16 = 2 ^ 4 * (v / 16) + v % 16 := by
    rw [Nat.mul_comm]
    exact (Nat.mul_add_lt_is_or h4 (v / 16)).symm
  rw [h5]
  omega

theorem encodeBytes_length (bytes : List Nat) :
    (encodeBytes bytes).length = 2 * bytes.length := by
  induction bytes with
  | nil => rfl
  | cons v rest ih => simp [encodeBytes, ih]; omega

theorem encodeBytes_mem_hextable (bytes : List Nat) (hb : ∀ b ∈ bytes, b < 256) :
    ∀ c ∈ encodeBytes bytes, c ∈ hextable.data := by
  induction bytes with
  | nil => simp [encodeBytes]
  | cons v rest ih =>
    have hv := byte_nibbles v (hb v (by simp))
    intro c hc
    simp only [encodeBytes, List.mem_cons] at hc
    rcases hc with rfl | rfl | hc
    · exact hexDigit_mem_hextable _ hv.1
    · exact hexDigit_mem_hextable _ hv.2.1
    · exact ih (fun b hbm => hb b (by simp [hbm])) c hc

theorem decodeChars_encodeBytes (bytes : List Nat) (hb : ∀ b ∈ bytes, b < 256) :
    decodeChars (encodeBytes bytes) = some bytes := by
  induction bytes with
  | nil => rfl
  | cons v rest ih =>
    have hv := byte_nibbles v (hb v (by simp))
    have ih1 := ih (fun b hbm => hb b (by simp [hbm]))
    simp only [encodeBytes, decodeChars, fromHexChar_hexDigit _ hv.1,
      fromHexChar_hexDigit _ hv.2.1, ih1, hv.2.2]

/-! ## Lemmas: hot update -/

theorem HotUpdateConfig_of_invalid (b : Bcrypt)
    (UpdateEndpoints : List Endpoint → List EndpointConfig → List Endpoint)
    (s : Server) (newConfig : Config) (err : String)
    (h : validateConfigForHotUpdate s newConfig = some err) :
    HotUpdateConfig b UpdateEndpoints s newConfig =
      (s, some ("invalid configuration: " ++ err)) := by
  unfold HotUpdateConfig
  rw [h]

theorem HotUpdateConfig_of_valid (b : Bcrypt)
    (UpdateEndpoints : List Endpoint → List EndpointConfig → List Endpoint)
    (s : Server) (newConfig : Config)
    (h : validateConfigForHotUpdate s newConfig = none) :
    (HotUpdateConfig b UpdateEndpoints s newConfig).2 = none ∧
    (HotUpdateConfig b UpdateEndpoints s newConfig).1.config = newConfig := by
  unfold HotUpdateConfig
  rw [h]
  simp [updateEndpoints]

theorem validateConfigForHotUpdate_none (s : Server) (newConfig : Config) :
    validateConfigForHotUpdate s newConfig = none ↔
      newConfig.Server.Host = s.config.Server.Host ∧
      newConfig.Server.Port = s.config.Server.Port ∧ newConfig.Endpoints ≠ [] := by
  unfold validateConfigForHotUpdate
  by_cases hh : newConfig.Server.Host = s.config.Server.Host
  · by_cases hp : newConfig.Server.Port = s.config.Server.Port
    · by_cases he : newConfig.Endpoints = []
      · simp [hh, hp, he]
      · have hlen : ¬ newConfig.Endpoints.length = 0 := by simpa using he
        simp [hh, hp, he, hlen]
    · simp [hh, hp]
  · simp [hh]

theorem HotUpdateConfig_server (b : Bcrypt)
    (UpdateEndpoints : List Endpoint → List EndpointConfig → List Endpoint)
    (s : Server) (newConfig : Config) :
    (HotUpdateConfig b UpdateEndpoints s newConfig).1.config.Server = s.config.Server := by
  cases hv : validateConfigForHotUpdate s newConfig with
  | some err => rw [HotUpdateConfig_of_invalid b UpdateEndpoints s newConfig err hv]
  | none =>
    rw [(HotUpdateConfig_of_valid b UpdateEndpoints s newConfig hv).2]
    obtain ⟨hh, hp, _⟩ := (validateConfigForHotUpdate_none s newConfig).mp hv
    cases hn : newConfig.Server with
    | mk host port =>
      cases hs : s.config.Server with
      | mk host0 port0 =>
        rw [hn, hs] at hh hp
        simp only at hh hp
        rw [hh, hp]

theorem HotUpdateConfigs_server (b : Bcrypt)
    (UpdateEndpoints : List Endpoint → List EndpointConfig → List Endpoint)
    (newConfigs : List Config) (s : Server) :
    (HotUpdateConfigs b UpdateEndpoints s newConfigs).config.Server = s.config.Server := by
  induction newConfigs generalizing s with
  | nil => rfl
  | cons c rest ih =>
    have hstep := ih (HotUpdateConfig b UpdateEndpoints s c).1
    unfold HotUpdateConfigs at hstep ⊢
    rw [List.foldl_cons, hstep, HotUpdateConfig_server]

/-! ## Lemmas: redirect after login -/

theorem isAdminPath_eq (path : String) :
    isAdminPath path =
      some (decide (path = "/admin" ∨ HasPrefix path "/admin/" = true)) := by
  have h7 : "/admin/".data.length = 7 := rfl
  unfold isAdminPath
  by_cases h1 : path = "/admin"
  · simp [h1]
  by_cases h2 : path = "/admin/"
  · subst h2
    have : HasPrefix "/admin/" "/admin/" = true := by decide
    simp [this]
  by_cases h3 : path.data.length > 6
  · have hle : 7 ≤ path.data.length := h3
    have hpre : HasPrefix path "/admin/" = decide (path.data.take 7 = "/admin/".data) := by
      unfold HasPrefix
      rw [h7, decide_eq_true hle]
      rfl
    have hmk : (String.mk (path.data.take 7) = "/admin/") ↔
        path.data.take 7 = "/admin/".data := by
      constructor
      · intro h
        exact congrArg String.data h
      · intro h
        exact String.ext h
    simp only [h1, h2, h3, if_true, if_false, sliceTo, hle, hpre, false_or,
      decide_eq_true_eq]
    by_cases ht : path.data.take 7 = "/admin/".data
    · simp [ht, hmk.mpr ht]
    · have hn : ¬ String.mk (path.data.take 7) = "/admin/" := fun h => ht (hmk.mp h)
      simp [ht, hn]
  · have hlt : ¬ 7 ≤ path.data.length := by omega
    have hpre : HasPrefix path "/admin/" = false := by
      unfold HasPrefix
      rw [h7, decide_eq_false hlt]
      rfl
    have h3s : ¬ 6 < path.length := h3
    simp [h1, h2, h3s, hpre]

theorem isValidRedirectURL_spec (urlParse : String → Except String URL) (r : String) :
    ∃ v : Bool, isValidRedirectURL urlParse r = some v ∧
      (v = true ↔ r ≠ "" ∧ ∃ u : URL, urlParse r = .ok u ∧ u.Scheme = "" ∧
        (u.Path = "/admin" ∨ HasPrefix u.Path "/admin/" = true)) := by
  unfold isValidRedirectURL
  by_cases hr : r = ""
  · exact ⟨false, by simp [hr], by simp [hr]⟩
  cases hparse : urlParse r with
  | error e => exact ⟨false, by simp [hr], by simp⟩
  | ok u =>
    by_cases hs : u.Scheme = ""
    · by_cases hp : u.Path = "/admin" ∨ HasPrefix u.Path "/admin/" = true
      · exact ⟨true, by simp [hr, URL.IsAbs, hs, isAdminPath_eq, hp], by simp [hr, hs, hp]⟩
      · exact ⟨false, by simp [hr, URL.IsAbs, hs, isAdminPath_eq, hp], by simp [hs, hp]⟩
    · exact ⟨false, by simp [hr, URL.IsAbs, hs], by simp [hs]⟩

/-! ## Claims -/

/-- C1. Tag matching is subset containment: `endpointMatchesTags ep T` is true
iff `T` and `ep.Tags` are both empty, or `T` is non-empty and every tag of `T`
occurs in `ep.Tags`; hence an endpoint missing a tag of `T` is not matched and
an untagged endpoint never matches a non-empty `T`. -/
theorem endpointMatchesTags_iff_subset (ep : Endpoint) (T : List String) :
    (endpointMatchesTags ep T = true ↔
      (T = [] ∧ ep.Tags = []) ∨ (T ≠ [] ∧ ∀ t ∈ T, t ∈ ep.Tags)) ∧
    ((∃ t ∈ T, t ∉ ep.Tags) → endpointMatchesTags ep T = false) ∧
    (ep.Tags = [] → T ≠ [] → endpointMatchesTags ep T = false) := by
  have main : endpointMatchesTags ep T = true ↔
      (T = [] ∧ ep.Tags = []) ∨ (T ≠ [] ∧ ∀ t ∈ T, t ∈ ep.Tags) := by
    unfold endpointMatchesTags
    by_cases hT : T = []
    · subst hT
      simp
    · have hlen : ¬ T.length = 0 := by simpa using hT
      simp [hlen, hT, allRequired_iff, buildTagSet_apply]
  refine ⟨main, ?_, ?_⟩
  · rintro ⟨t, htT, htE⟩
    cases hb : endpointMatchesTags ep T with
    | false => rfl
    | true =>
      rcases main.mp hb with ⟨hT, _⟩ | ⟨_, hall⟩
      · subst hT
        simp at htT
      · exact absurd (hall t htT) htE
  · intro hE hT
    cases hb : endpointMatchesTags ep T with
    | false => rfl
    | true =>
      rcases main.mp hb with ⟨hT0, _⟩ | ⟨_, hall⟩
      · exact absurd hT0 hT
      · obtain ⟨t, ts, rfl⟩ := List.exists_cons_of_ne_nil hT
        have := hall t (by simp)
        rw [hE] at this
        simp at this

/-- C2. Inbound bearer authentication: `validateClientAuth` returns no error iff
client authentication is disabled, or the configured token is non-empty and the
`Authorization` value is exactly `"Bearer "` followed by that token; with
authentication enabled and an empty configured token every request is
rejected. -/
theorem validateClientAuth_none_iff (cfg : ClientAuthConfig) (h : String) :
    (validateClientAuth cfg h = none ↔
      cfg.Enabled = false ∨ (cfg.RequiredToken ≠ "" ∧ h = "Bearer " ++ cfg.RequiredToken)) ∧
    (cfg.Enabled = true → cfg.RequiredToken = "" → validateClientAuth cfg h ≠ none) := by
  have main : validateClientAuth cfg h = none ↔
      cfg.Enabled = false ∨ (cfg.RequiredToken ≠ "" ∧ h = "Bearer " ++ cfg.RequiredToken) := by
    unfold validateClientAuth
    by_cases hen : cfg.Enabled = true
    swap
    · simp [hen]
    by_cases hreq : cfg.RequiredToken = ""
    · simp [hen, hreq]
    by_cases hpre : HasPrefix h bearerPrefix = true
    swap
    · have hne : ¬ h = "Bearer " ++ cfg.RequiredToken := by
        intro heq
        exact hpre ((HasPrefix_iff h bearerPrefix).mpr ⟨cfg.RequiredToken, heq⟩)
      simp only [hen, hreq, hpre, hne]
      by_cases hempty : h = "" <;> simp [hempty]
    obtain ⟨t, rfl⟩ := (HasPrefix_iff h bearerPrefix).mp hpre
    have hnonempty : ¬ bearerPrefix ++ t = "" := by
      intro heq
      have := congrArg String.data heq
      simp [bearerPrefix] at this
    have happ : ∀ u : String, bearerPrefix ++ t = "Bearer " ++ u ↔ t = u := by
      intro u
      constructor
      · intro heq
        have := congrArg String.data heq
        simp only [bearerPrefix, String.data_append, List.append_cancel_left_eq] at this
        exact String.ext this
      · rintro rfl
        rfl
    simp only [hen, hreq, hpre, hnonempty, sliceFrom_append, happ]
    by_cases ht : t = ""
    · subst ht
      have : ¬ "" = cfg.RequiredToken := fun heq => hreq heq.symm
      simp [this]
    · by_cases hc : t = cfg.RequiredToken
      · rw [← hc]
        have hc1 : ConstantTimeCompare t t = 1 := (ConstantTimeCompare_eq_one t t).mpr rfl
        simp [ht, hc1]
      · have hc1 : ¬ ConstantTimeCompare t cfg.RequiredToken = 1 :=
          fun h1 => hc ((ConstantTimeCompare_eq_one t cfg.RequiredToken).mp h1)
        simp [ht, hc1, hc]
  refine ⟨main, ?_⟩
  intro hen hreq hnone
  rcases main.mp hnone with hdis | ⟨hne, _⟩
  · rw [hen] at hdis
    exact Bool.noConfusion hdis
  · exact hne hreq

/-- C3. Diagnostic for a tagged request: for a non-empty request tag list `T` the
message is `request <id> with tag (<T joined by ", ">) had failed on a active out
of b (with tags) and c active of d (universal) endpoints`, where `b` counts the
enabled endpoints with a non-empty tag set containing every tag of `T`, `a` those
of them that are available, `d` the enabled endpoints with an empty tag set and
`c` those of them that are available; `a ≤ b`, `c ≤ d`, and disabled endpoints
do not contribute (dropping them leaves the message unchanged). -/
theorem generateDetailed_tagged (eps : List Endpoint) (requestID : String) (T : List String)
    (hT : T ≠ []) :
    generateDetailedEndpointUnavailableMessage eps requestID T =
      "request " ++ requestID ++ " with tag (" ++ Join T ", " ++ ") had failed on "
        ++ fmtInt (eps.countP (fun ep => ep.Enabled && decide (ep.Tags ≠ []) &&
            decide (∀ t ∈ T, t ∈ ep.Tags) && ep.IsAvailable))
        ++ " active out of "
        ++ fmtInt (eps.countP (fun ep => ep.Enabled && decide (ep.Tags ≠ []) &&
            decide (∀ t ∈ T, t ∈ ep.Tags)))
        ++ " (with tags) and "
        ++ fmtInt (eps.countP (fun ep => ep.Enabled && decide (ep.Tags = []) && ep.IsAvailable))
        ++ " active of "
        ++ fmtInt (eps.countP (fun ep => ep.Enabled && decide (ep.Tags = [])))
        ++ " (universal) endpoints" ∧
    eps.countP (fun ep => ep.Enabled && decide (ep.Tags ≠ []) &&
        decide (∀ t ∈ T, t ∈ ep.Tags) && ep.IsAvailable) ≤
      eps.countP (fun ep => ep.Enabled && decide (ep.Tags ≠ []) &&
        decide (∀ t ∈ T, t ∈ ep.Tags)) ∧
    eps.countP (fun ep => ep.Enabled && decide (ep.Tags = []) && ep.IsAvailable) ≤
      eps.countP (fun ep => ep.Enabled && decide (ep.Tags = [])) ∧
    generateDetailedEndpointUnavailableMessage (eps.filter (fun ep => ep.Enabled)) requestID T =
      generateDetailedEndpointUnavailableMessage eps requestID T := by
  have hlen : T.length > 0 := List.length_pos.mpr hT
  refine ⟨?_, ?_, ?_, ?_⟩
  · unfold generateDetailedEndpointUnavailableMessage
    rw [if_pos hlen, foldl_taggedStep T hT eps]
    simp only [Nat.zero_add]
  · apply List.countP_mono_left
    intro ep _ h
    simp only [Bool.and_eq_true] at h
    simp only [Bool.and_eq_true]
    exact h.1
  · apply List.countP_mono_left
    intro ep _ h
    simp only [Bool.and_eq_true] at h
    simp only [Bool.and_eq_true]
    exact h.1
  · unfold generateDetailedEndpointUnavailableMessage
    rw [if_pos hlen, if_pos hlen, foldl_taggedStep_filter]

/-- Witness of C3: two tagged endpoints (one disabled) and one universal
endpoint, request tags `fast`. -/
theorem generateDetailed_tagged_witness :
    (["fast"] : List String) ≠ [] ∧
    generateDetailedEndpointUnavailableMessage
      [⟨"A", true, ["fast", "big"], false, none⟩, ⟨"B", false, ["fast"], true, none⟩,
       ⟨"U", true, [], true, none⟩] "r1" ["fast"] =
      "request r1 with tag (fast) had failed on 0 active out of 1 (with tags) and 1 active of 1 (universal) endpoints" := by
  refine ⟨by simp, ?_⟩
  rw [(generateDetailed_tagged _ "r1" ["fast"] (by simp)).1]
  decide

/-- C4. Diagnostic for an untagged request: with an empty request tag list the
message is `request <id> without tag had failed on c active of d (universal)
endpoints` (`d` the enabled endpoints with an empty tag set, `c` those of them
available), and the tagging hint is appended iff every enabled endpoint has a
non-empty tag set; with an enabled universal endpoint it is never appended. -/
theorem generateDetailed_untagged (eps : List Endpoint) (requestID : String) :
    ∃ base : String,
      base = "request " ++ requestID ++ " without tag had failed on "
        ++ fmtInt (eps.countP (fun ep => ep.Enabled && decide (ep.Tags = []) && ep.IsAvailable))
        ++ " active of "
        ++ fmtInt (eps.countP (fun ep => ep.Enabled && decide (ep.Tags = [])))
        ++ " (universal) endpoints" ∧
      generateDetailedEndpointUnavailableMessage eps requestID [] =
        (if ∀ ep ∈ eps, ep.Enabled = true → ep.Tags ≠ [] then
          base ++ ". All endpoints are tagged but request is not tagged, make sure you understand how tags works"
         else base) ∧
      (generateDetailedEndpointUnavailableMessage eps requestID [] =
          base ++ ". All endpoints are tagged but request is not tagged, make sure you understand how tags works"
        ↔ ∀ ep ∈ eps, ep.Enabled = true → ep.Tags ≠ []) ∧
      ((∃ ep ∈ eps, ep.Enabled = true ∧ ep.Tags = []) →
        generateDetailedEndpointUnavailableMessage eps requestID [] = base) := by
  refine ⟨_, rfl, ?_⟩
  have hmsg : generateDetailedEndpointUnavailableMessage eps requestID [] =
      (if ∀ ep ∈ eps, ep.Enabled = true → ep.Tags ≠ [] then
        "request " ++ requestID ++ " without tag had failed on "
          ++ fmtInt (eps.countP (fun ep => ep.Enabled && decide (ep.Tags = []) &&
              ep.IsAvailable))
          ++ " active of "
          ++ fmtInt (eps.countP (fun ep => ep.Enabled && decide (ep.Tags = [])))
          ++ " (universal) endpoints" ++ taggingHint
       else
        "request " ++ requestID ++ " without tag had failed on "
          ++ fmtInt (eps.countP (fun ep => ep.Enabled && decide (ep.Tags = []) &&
              ep.IsAvailable))
          ++ " active of "
          ++ fmtInt (eps.countP (fun ep => ep.Enabled && decide (ep.Tags = [])))
          ++ " (universal) endpoints") := by
    unfold generateDetailedEndpointUnavailableMessage
    have hlen : ¬ ([] : List String).length > 0 := by simp
    rw [if_neg hlen, foldl_untaggedStep eps]
    simp only [Nat.zero_add, Bool.true_and]
    by_cases hall : ∀ ep ∈ eps, ep.Enabled = true → ep.Tags ≠ []
    · rw [if_pos hall, countP_universal_eq_zero eps hall, decide_eq_true hall]
      simp
    · rw [if_neg hall, decide_eq_false hall]
      simp
  refine ⟨hmsg, ?_, ?_⟩
  · rw [hmsg]
    by_cases hall : ∀ ep ∈ eps, ep.Enabled = true → ep.Tags ≠ []
    · rw [if_pos hall]
      exact ⟨fun _ => hall, fun _ => rfl⟩
    · rw [if_neg hall]
      constructor
      · intro h
        exact absurd h.symm (String_append_ne_self _ _ (by decide))
      · intro h
        exact absurd h hall
  · rintro ⟨ep, hep, hen, htags⟩
    rw [hmsg, if_neg]
    intro hall
    exact hall ep hep hen htags

/-- C5. A client authentication failure is terminal: when `validateClientAuth`
returns an error, `handleProxy` performs exactly one step, an error response
with status 401 carrying that error, and neither reads the body, runs tagging,
selects an endpoint nor starts an upstream attempt. -/
theorem handleProxy_auth_failure (clientAuth : ClientAuthConfig) (eps : List Endpoint)
    (env : Collaborators) (c : Inbound) (err : String)
    (h : validateClientAuth clientAuth c.authHeader = some err) :
    handleProxy clientAuth eps env c =
      [Event.sendProxyError 401 "client_auth_required" err c.requestID] ∧
    ((handleProxy clientAuth eps env c).filter Event.isResponse).length = 1 ∧
    Event.readRequestBody ∉ handleProxy clientAuth eps env c ∧
    Event.processRequestTags ∉ handleProxy clientAuth eps env c ∧
    (∀ t, Event.selectEndpointForRequest t ∉ handleProxy clientAuth eps env c) ∧
    (handleProxy clientAuth eps env c).filter Event.isUpstream = [] := by
  have htrace : handleProxy clientAuth eps env c =
      [Event.sendProxyError 401 "client_auth_required" err c.requestID] := by
    unfold handleProxy
    rw [h]
    rfl
  rw [htrace]
  simp [Event.isResponse, Event.isUpstream]

/-- Witness of C5: authentication enabled with token `secret`, request without
an `Authorization` header. -/
theorem handleProxy_auth_failure_witness :
    validateClientAuth ⟨true, "secret"⟩ "" = some "missing Authorization header" ∧
    handleProxy ⟨true, "secret"⟩ []
      ⟨.ok "body", fun _ => "m", fun _ => none, none, fun _ => .error "none",
        fun _ _ _ _ _ _ _ => (true, false)⟩
      ⟨"r1", 0, "/v1/messages", ""⟩ =
      [Event.sendProxyError 401 "client_auth_required" "missing Authorization header" "r1"] :=
  ⟨by decide,
   (handleProxy_auth_failure ⟨true, "secret"⟩ []
      ⟨.ok "body", fun _ => "m", fun _ => none, none, fun _ => .error "none",
        fun _ _ _ _ _ _ _ => (true, false)⟩
      ⟨"r1", 0, "/v1/messages", ""⟩ "missing Authorization header" (by decide)).1⟩

/-- C6. No eligible endpoint is terminal: when `selectEndpointForRequest` returns
an error, `handleProxy` sends exactly one response, the failure response with
attempt number 0 whose tags are the tags of the tagged request (none when the
tagged request is `nil`) and whose message is
`generateDetailedEndpointUnavailableMessage` for the request id and those tags,
starts no upstream attempt, and that message contains the request id (for
tagged and untagged requests alike). -/
theorem handleProxy_no_endpoint (clientAuth : ClientAuthConfig) (eps : List Endpoint)
    (env : Collaborators) (c : Inbound) (body err : String)
    (hauth : validateClientAuth clientAuth c.authHeader = none)
    (hbody : env.readRequestBody = .ok body)
    (hsel : env.selectEndpointForRequest env.processRequestTags = .error err) :
    (∀ tr : TaggedRequest, env.processRequestTags = some tr →
      (handleProxy clientAuth eps env c).filter Event.isResponse =
        [Event.sendFailureResponse c.requestID c.startTime body tr.Tags 0
          (generateDetailedEndpointUnavailableMessage eps c.requestID tr.Tags)
          "no_available_endpoints"]) ∧
    (env.processRequestTags = none →
      (handleProxy clientAuth eps env c).filter Event.isResponse =
        [Event.sendFailureResponse c.requestID c.startTime body [] 0
          (generateDetailedEndpointUnavailableMessage eps c.requestID [])
          "no_available_endpoints"]) ∧
    (handleProxy clientAuth eps env c).filter Event.isUpstream = [] ∧
    (∀ T : List String,
      Contains (generateDetailedEndpointUnavailableMessage eps c.requestID T) c.requestID) := by
  have htrace : handleProxy clientAuth eps env c =
      [Event.readRequestBody,
        Event.ctxSet "original_model" (some (env.extractModelFromRequest body))]
        ++ thinkingLog (env.ExtractThinkingInfo body)
        ++ [Event.ctxSet "thinking_info" none, Event.processRequestTags,
            Event.selectEndpointForRequest env.processRequestTags]
        ++ [Event.logError "Failed to select endpoint" err,
            Event.sendFailureResponse c.requestID c.startTime body
              (requestTagsOf env.processRequestTags) 0
              (generateDetailedEndpointUnavailableMessage eps c.requestID
                (requestTagsOf env.processRequestTags))
              "no_available_endpoints"] := by
    unfold handleProxy
    rw [hauth]
    simp only [hbody, hsel]
  have hresp : (handleProxy clientAuth eps env c).filter Event.isResponse =
      [Event.sendFailureResponse c.requestID c.startTime body
        (requestTagsOf env.processRequestTags) 0
        (generateDetailedEndpointUnavailableMessage eps c.requestID
          (requestTagsOf env.processRequestTags))
        "no_available_endpoints"] := by
    rw [htrace]
    simp [List.filter_append, filter_isResponse_thinkingLog, Event.isResponse]
  refine ⟨?_, ?_, ?_, fun T => generateDetailed_contains_id eps c.requestID T⟩
  · intro tr htr
    rw [hresp, htr]
    rfl
  · intro hnone
    rw [hresp, hnone]
    rfl
  · rw [htrace]
    simp [List.filter_append, filter_isUpstream_thinkingLog, Event.isUpstream]

/-- Witness of C6: no authentication, a request tagged `fast`, one enabled but
unavailable endpoint tagged `fast` and one disabled universal endpoint;
selection fails and the one response carries the tags and the count
breakdown. -/
theorem handleProxy_no_endpoint_witness :
    generateDetailedEndpointUnavailableMessage
      [⟨"A", true, ["fast"], false, none⟩, ⟨"U", false, [], true, none⟩] "r7" ["fast"] =
      "request r7 with tag (fast) had failed on 0 active out of 1 (with tags) and 0 active of 0 (universal) endpoints" ∧
    (handleProxy ⟨false, ""⟩
      [⟨"A", true, ["fast"], false, none⟩, ⟨"U", false, [], true, none⟩]
      ⟨.ok "body", fun _ => "m", fun _ => none, some ⟨["fast"]⟩, fun _ => .error "no endpoint",
        fun _ _ _ _ _ _ _ => (true, false)⟩
      ⟨"r7", 3, "/v1/messages", ""⟩).filter Event.isResponse =
      [Event.sendFailureResponse "r7" 3 "body" ["fast"] 0
        (generateDetailedEndpointUnavailableMessage
          [⟨"A", true, ["fast"], false, none⟩, ⟨"U", false, [], true, none⟩] "r7" ["fast"])
        "no_available_endpoints"] :=
  ⟨by decide,
   (handleProxy_no_endpoint ⟨false, ""⟩
      [⟨"A", true, ["fast"], false, none⟩, ⟨"U", false, [], true, none⟩]
      ⟨.ok "body", fun _ => "m", fun _ => none, some ⟨["fast"]⟩, fun _ => .error "no endpoint",
        fun _ _ _ _ _ _ _ => (true, false)⟩
      ⟨"r7", 3, "/v1/messages", ""⟩ "body" "no endpoint" (by decide) rfl rfl).1
     ⟨["fast"]⟩ rfl⟩

/-- C7. First attempt and fallback gating: after authentication, body capture and
selection succeed, `handleProxy` dispatches the selected endpoint as attempt
number 1 and calls `fallbackToOtherEndpoints` iff that attempt returned
`success = false` and `shouldRetry = true`; on success nothing else is
dispatched, and on a non-retryable failure no fallback is started. -/
theorem handleProxy_first_attempt (clientAuth : ClientAuthConfig) (eps : List Endpoint)
    (env : Collaborators) (c : Inbound) (body : String) (ep : Endpoint)
    (hauth : validateClientAuth clientAuth c.authHeader = none)
    (hbody : env.readRequestBody = .ok body)
    (hsel : env.selectEndpointForRequest env.processRequestTags = .ok ep) :
    (handleProxy clientAuth eps env c).filter Event.isUpstream =
      Event.tryProxyRequest ep body c.requestID c.startTime c.path env.processRequestTags 1 ::
        (if (env.tryProxyRequest ep body c.requestID c.startTime c.path
              env.processRequestTags 1).1 = false ∧
            (env.tryProxyRequest ep body c.requestID c.startTime c.path
              env.processRequestTags 1).2 = true then
          [Event.fallbackToOtherEndpoints c.path body c.requestID c.startTime ep
            env.processRequestTags]
         else []) ∧
    (Event.fallbackToOtherEndpoints c.path body c.requestID c.startTime ep
        env.processRequestTags ∈ handleProxy clientAuth eps env c ↔
      (env.tryProxyRequest ep body c.requestID c.startTime c.path
          env.processRequestTags 1).1 = false ∧
      (env.tryProxyRequest ep body c.requestID c.startTime c.path
          env.processRequestTags 1).2 = true) ∧
    ((env.tryProxyRequest ep body c.requestID c.startTime c.path
          env.processRequestTags 1).1 = true →
      (handleProxy clientAuth eps env c).filter Event.isUpstream =
        [Event.tryProxyRequest ep body c.requestID c.startTime c.path
          env.processRequestTags 1]) ∧
    ((env.tryProxyRequest ep body c.requestID c.startTime c.path
          env.processRequestTags 1).1 = false →
      (env.tryProxyRequest ep body c.requestID c.startTime c.path
          env.processRequestTags 1).2 = false →
      ∀ e ∈ handleProxy clientAuth eps env c,
        ∀ p b r t f tr, e ≠ Event.fallbackToOtherEndpoints p b r t f tr) := by
  rw [handleProxy_selected_trace clientAuth eps env c body ep hauth hbody hsel]
  have hlog := not_upstream_mem_thinkingLog (env.ExtractThinkingInfo body)
  have hfilt := filter_isUpstream_thinkingLog (env.ExtractThinkingInfo body)
  generalize env.tryProxyRequest ep body c.requestID c.startTime c.path
    env.processRequestTags 1 = r at *
  refine ⟨?_, ?_, ?_, ?_⟩
  · rcases r with ⟨_ | _, _ | _⟩ <;>
      simp [List.filter_append, List.filter_cons, hfilt, Event.isUpstream]
  · have hfb := hlog (Event.fallbackToOtherEndpoints c.path body c.requestID c.startTime ep
      env.processRequestTags) rfl
    rcases r with ⟨_ | _, _ | _⟩ <;> simp [hfb]
  · intro h1
    rcases r with ⟨_ | _, _ | _⟩ <;>
      simp_all [List.filter_append, List.filter_cons, Event.isUpstream]
  · intro h1 h2 e he p b q t f tr heq
    subst heq
    have hfb := hlog (Event.fallbackToOtherEndpoints p b q t f tr) rfl
    rcases r with ⟨_ | _, _ | _⟩ <;> simp_all

/-- Witness of C7: the selected endpoint fails retryably, so the fallback is
started after attempt 1. -/
theorem handleProxy_first_attempt_witness :
    (handleProxy ⟨false, ""⟩ [⟨"A", true, [], true, none⟩]
      ⟨.ok "body", fun _ => "m", fun _ => none, some ⟨[]⟩,
        fun _ => .ok ⟨"A", true, [], true, none⟩, fun _ _ _ _ _ _ _ => (false, true)⟩
      ⟨"r7", 3, "/v1/messages", ""⟩).filter Event.isUpstream =
      [Event.tryProxyRequest ⟨"A", true, [], true, none⟩ "body" "r7" 3 "/v1/messages"
          (some ⟨[]⟩) 1,
       Event.fallbackToOtherEndpoints "/v1/messages" "body" "r7" 3 ⟨"A", true, [], true, none⟩
          (some ⟨[]⟩)] :=
  (handleProxy_first_attempt ⟨false, ""⟩ [⟨"A", true, [], true, none⟩]
      ⟨.ok "body", fun _ => "m", fun _ => none, some ⟨[]⟩,
        fun _ => .ok ⟨"A", true, [], true, none⟩, fun _ _ _ _ _ _ _ => (false, true)⟩
      ⟨"r7", 3, "/v1/messages", ""⟩ "body" ⟨"A", true, [], true, none⟩ (by decide) rfl rfl).1

/-- C8. Backup-then-write on save: when `SaveConfig cfg path` succeeds, `cfg` is
valid, `path` holds the YAML serialisation of `cfg`, a file that existed at
`path` with content `c` leaves `c` at `path ++ ".backup"`, with no file at
`path` the backup path is untouched, and every other path is unchanged. -/
theorem SaveConfig_success (validateConfig : Config → Option String)
    (yamlMarshal : Config → Except String String) (os : OsAnswers)
    (cfg : Config) (path : String) (fs : FileSystem)
    (h : (SaveConfig validateConfig yamlMarshal os cfg path fs).2 = none) :
    validateConfig cfg = none ∧
    (∃ data, yamlMarshal cfg = .ok data ∧
      (SaveConfig validateConfig yamlMarshal os cfg path fs).1 path = some data) ∧
    (∀ c, fs path = some c →
      (SaveConfig validateConfig yamlMarshal os cfg path fs).1 (path ++ ".backup") = some c) ∧
    (fs path = none →
      (SaveConfig validateConfig yamlMarshal os cfg path fs).1 (path ++ ".backup") =
        fs (path ++ ".backup")) ∧
    (∀ p, p ≠ path → p ≠ path ++ ".backup" →
      (SaveConfig validateConfig yamlMarshal os cfg path fs).1 p = fs p) := by
  have hne : path ++ ".backup" ≠ path := String_append_ne_self _ _ (by decide)
  unfold SaveConfig at h ⊢
  cases hv : validateConfig cfg with
  | some e => simp [hv] at h
  | none =>
    cases hm : yamlMarshal cfg with
    | error e => simp [hv, hm] at h
    | ok data =>
      cases hf : fs path with
      | none =>
        cases hw : os.writeFile with
        | ok =>
          simp [hf, osWriteFile, hne]
          intro p hp _ hpp
          exact absurd hpp hp
        | failedBeforeOpen e => simp [hv, hm, hf, hw] at h
        | failedAfterOpen e r => simp [hv, hm, hf, hw] at h
      | some c =>
        cases hr : os.rename with
        | some e => simp [hv, hm, hf, hr] at h
        | none =>
          cases hw : os.writeFile with
          | ok =>
            simp only [hf, Option.isSome_some, if_true, osWriteFile, osRename, hne, if_false,
              true_and]
            refine ⟨⟨data, rfl, by simp⟩, ?_, ?_, ?_⟩
            · intro c0 hc0
              simpa using hc0
            · intro hc0
              simp at hc0
            · intro p hp hpb
              simp [hp, hpb]
          | failedBeforeOpen e => simp [hv, hm, hf, hr, hw] at h
          | failedAfterOpen e r => simp [hv, hm, hf, hr, hw] at h

/-- Witness of C8: an existing `config.yaml` is moved to `config.yaml.backup`
and replaced. -/
theorem SaveConfig_success_witness :
    (SaveConfig (fun _ => none) (fun _ => .ok "new") ⟨none, .ok⟩
      ⟨⟨"127.0.0.1", 8080⟩, [], ⟨"", "", "", "", ""⟩, ⟨[]⟩, ⟨"", []⟩, ⟨"", "", "", "", ""⟩,
        ⟨false, "", "", ""⟩, ⟨false, ""⟩⟩
      "config.yaml" (fun p => if p = "config.yaml" then some "old" else none)).1
      "config.yaml.backup" = some "old" :=
  (SaveConfig_success (fun _ => none) (fun _ => .ok "new") ⟨none, .ok⟩
      ⟨⟨"127.0.0.1", 8080⟩, [], ⟨"", "", "", "", ""⟩, ⟨[]⟩, ⟨"", []⟩, ⟨"", "", "", "", ""⟩,
        ⟨false, "", "", ""⟩, ⟨false, ""⟩⟩
      "config.yaml" (fun p => if p = "config.yaml" then some "old" else none)
      (by decide)).2.2.1 "old" (by decide)

/-- C9, counterexample. A valid configuration, an existing `config.yaml` with
content `old`, a backup rename that succeeds and a write that fails before the
file is opened: `SaveConfig` returns an error and no file is left at
`config.yaml` (its content is at `config.yaml.backup`). -/
theorem SaveConfig_error_loses_file :
    (SaveConfig (fun _ => none) (fun _ => .ok "new") ⟨none, .failedBeforeOpen "disk full"⟩
      ⟨⟨"127.0.0.1", 8080⟩, [], ⟨"", "", "", "", ""⟩, ⟨[]⟩, ⟨"", []⟩, ⟨"", "", "", "", ""⟩,
        ⟨false, "", "", ""⟩, ⟨false, ""⟩⟩
      "config.yaml" (fun p => if p = "config.yaml" then some "old" else none)).2 =
      some "failed to write config file: disk full" ∧
    (fun p => if p = "config.yaml" then some "old" else none : FileSystem) "config.yaml" =
      some "old" ∧
    (SaveConfig (fun _ => none) (fun _ => .ok "new") ⟨none, .failedBeforeOpen "disk full"⟩
      ⟨⟨"127.0.0.1", 8080⟩, [], ⟨"", "", "", "", ""⟩, ⟨[]⟩, ⟨"", []⟩, ⟨"", "", "", "", ""⟩,
        ⟨false, "", "", ""⟩, ⟨false, ""⟩⟩
      "config.yaml" (fun p => if p = "config.yaml" then some "old" else none)).1
      "config.yaml" = none ∧
    (SaveConfig (fun _ => none) (fun _ => .ok "new") ⟨none, .failedBeforeOpen "disk full"⟩
      ⟨⟨"127.0.0.1", 8080⟩, [], ⟨"", "", "", "", ""⟩, ⟨[]⟩, ⟨"", []⟩, ⟨"", "", "", "", ""⟩,
        ⟨false, "", "", ""⟩, ⟨false, ""⟩⟩
      "config.yaml" (fun p => if p = "config.yaml" then some "old" else none)).1
      "config.yaml.backup" = some "old" := by
  decide

/-- C9, amended. When `SaveConfig cfg path` returns an error raised by
validation, by marshalling or by the backup rename, the filesystem is unchanged,
so the file at `path` keeps its content; when the error is raised by the write,
the write did not succeed, a file that existed at `path` has its previous
content at `path ++ ".backup"`, and every path other than `path` and
`path ++ ".backup"` is unchanged. -/
theorem SaveConfig_error_keeps_content (validateConfig : Config → Option String)
    (yamlMarshal : Config → Except String String) (os : OsAnswers)
    (cfg : Config) (path : String) (fs : FileSystem)
    (h : (SaveConfig validateConfig yamlMarshal os cfg path fs).2 ≠ none) :
    ((validateConfig cfg ≠ none ∨ (∃ e, yamlMarshal cfg = .error e) ∨
        (fs path ≠ none ∧ os.rename ≠ none)) →
      (SaveConfig validateConfig yamlMarshal os cfg path fs).1 = fs) ∧
    (¬ (validateConfig cfg ≠ none ∨ (∃ e, yamlMarshal cfg = .error e) ∨
        (fs path ≠ none ∧ os.rename ≠ none)) →
      os.writeFile ≠ .ok ∧
      (∀ c, fs path = some c →
        (SaveConfig validateConfig yamlMarshal os cfg path fs).1 (path ++ ".backup") = some c) ∧
      (∀ p, p ≠ path → p ≠ path ++ ".backup" →
        (SaveConfig validateConfig yamlMarshal os cfg path fs).1 p = fs p)) := by
  have hne : path ++ ".backup" ≠ path := String_append_ne_self _ _ (by decide)
  unfold SaveConfig at h ⊢
  cases hv : validateConfig cfg with
  | some e => simp
  | none =>
    cases hm : yamlMarshal cfg with
    | error e => simp
    | ok data =>
      cases hf : fs path with
      | none =>
        cases hw : os.writeFile with
        | ok => simp [hv, hm, hf, hw] at h
        | failedBeforeOpen e => simp
        | failedAfterOpen e r =>
          simp [osWriteFile]
          intro p hp _
          simp [hp]
      | some c =>
        cases hr : os.rename with
        | some e => simp
        | none =>
          cases hw : os.writeFile with
          | ok => simp [hv, hm, hf, hr, hw] at h
          | failedBeforeOpen e =>
            simp [osRename, hf]
            intro p hp hpb
            simp [hp, hpb]
          | failedAfterOpen e r =>
            simp [osRename, osWriteFile, hf, hne]
            intro p hp hpb
            simp [hp, hpb]

/-- Witness of C9 (amended): at the input of the counterexample the previous
content is at `config.yaml.backup`. -/
theorem SaveConfig_error_keeps_content_witness :
    (SaveConfig (fun _ => none) (fun _ => .ok "new") ⟨none, .failedBeforeOpen "disk full"⟩
      ⟨⟨"127.0.0.1", 8080⟩, [], ⟨"", "", "", "", ""⟩, ⟨[]⟩, ⟨"", []⟩, ⟨"", "", "", "", ""⟩,
        ⟨false, "", "", ""⟩, ⟨false, ""⟩⟩
      "config.yaml" (fun p => if p = "config.yaml" then some "old" else none)).1
      ("config.yaml" ++ ".backup") = some "old" :=
  ((SaveConfig_error_keeps_content (fun _ => none) (fun _ => .ok "new")
      ⟨none, .failedBeforeOpen "disk full"⟩
      ⟨⟨"127.0.0.1", 8080⟩, [], ⟨"", "", "", "", ""⟩, ⟨[]⟩, ⟨"", []⟩, ⟨"", "", "", "", ""⟩,
        ⟨false, "", "", ""⟩, ⟨false, ""⟩⟩
      "config.yaml" (fun p => if p = "config.yaml" then some "old" else none)
      (by decide)).2 (by simp)).2.1 "old" (by decide)

/-- C10, counterexample. The configuration has one endpoint `x` with no OAuth
record, the refreshed endpoint `x` carries a new record, and the write of the
configuration file fails: the callback returns an error, yet the in-memory
entry `x` already holds the new record. -/
theorem oauthCallback_updates_memory_on_failure :
    (oauthTokenRefreshCallback (fun _ => none) (fun _ => .ok "yaml")
      ⟨none, .failedBeforeOpen "disk full"⟩
      ⟨⟨⟨"127.0.0.1", 8080⟩, [⟨"x", "u", "anthropic", "", "oauth", "", true, 1, [], none⟩],
        ⟨"", "", "", "", ""⟩, ⟨[]⟩, ⟨"", []⟩, ⟨"", "", "", "", ""⟩, ⟨false, "", "", ""⟩,
        ⟨false, ""⟩⟩, "config.yaml"⟩
      ⟨"x", true, [], true, some ⟨"at2", "rt2", 5, "t", "c", [], true⟩⟩
      (fun _ => none)).2.2 = some "failed to write config file: disk full" ∧
    (oauthTokenRefreshCallback (fun _ => none) (fun _ => .ok "yaml")
      ⟨none, .failedBeforeOpen "disk full"⟩
      ⟨⟨⟨"127.0.0.1", 8080⟩, [⟨"x", "u", "anthropic", "", "oauth", "", true, 1, [], none⟩],
        ⟨"", "", "", "", ""⟩, ⟨[]⟩, ⟨"", []⟩, ⟨"", "", "", "", ""⟩, ⟨false, "", "", ""⟩,
        ⟨false, ""⟩⟩, "config.yaml"⟩
      ⟨"x", true, [], true, some ⟨"at2", "rt2", 5, "t", "c", [], true⟩⟩
      (fun _ => none)).1.config.Endpoints =
      [⟨"x", "u", "anthropic", "", "oauth", "", true, 1, [],
        some ⟨"at2", "rt2", 5, "t", "c", [], true⟩⟩] ∧
    (oauthTokenRefreshCallback (fun _ => none) (fun _ => .ok "yaml")
      ⟨none, .failedBeforeOpen "disk full"⟩
      ⟨⟨⟨"127.0.0.1", 8080⟩, [⟨"x", "u", "anthropic", "", "oauth", "", true, 1, [], none⟩],
        ⟨"", "", "", "", ""⟩, ⟨[]⟩, ⟨"", []⟩, ⟨"", "", "", "", ""⟩, ⟨false, "", "", ""⟩,
        ⟨false, ""⟩⟩, "config.yaml"⟩
      ⟨"x", true, [], true, some ⟨"at2", "rt2", 5, "t", "c", [], true⟩⟩
      (fun _ => none)).1.config.Endpoints ≠
      [⟨"x", "u", "anthropic", "", "oauth", "", true, 1, [], none⟩] := by
  decide

/-- C10, amended. The callback first replaces, in the in-memory
`s.config.Endpoints`, the `OAuthConfig` of exactly the first entry whose `Name`
equals `ep.Name` by `ep.OAuthConfig` (every other entry, every other section
and the file path are unchanged), and then saves that updated configuration and
returns the error of the save; the in-memory update is thus in place whether the
save succeeds or fails. -/
theorem oauthCallback_updates_then_saves (validateConfig : Config → Option String)
    (yamlMarshal : Config → Except String String) (os : OsAnswers)
    (s : ServerState) (ep : Endpoint) (fs : FileSystem) :
    (oauthTokenRefreshCallback validateConfig yamlMarshal os s ep fs).1.configFilePath =
      s.configFilePath ∧
    (oauthTokenRefreshCallback validateConfig yamlMarshal os s ep fs).1.config =
      { s.config with
        Endpoints :=
          (oauthTokenRefreshCallback validateConfig yamlMarshal os s ep fs).1.config.Endpoints } ∧
    (oauthTokenRefreshCallback validateConfig yamlMarshal os s ep fs).1.config.Endpoints.length =
      s.config.Endpoints.length ∧
    (∀ i : Nat,
      (oauthTokenRefreshCallback validateConfig yamlMarshal os s ep fs).1.config.Endpoints[i]? =
        (s.config.Endpoints[i]?).map (fun c =>
          if i = s.config.Endpoints.findIdx (fun c => decide (c.Name = ep.Name)) then
            { c with OAuthConfig := ep.OAuthConfig }
          else c)) ∧
    (oauthTokenRefreshCallback validateConfig yamlMarshal os s ep fs).2 =
      SaveConfig validateConfig yamlMarshal os
        (oauthTokenRefreshCallback validateConfig yamlMarshal os s ep fs).1.config
        s.configFilePath fs := by
  refine ⟨rfl, rfl, ?_, ?_, rfl⟩
  · exact setOAuthConfig_length s.config.Endpoints ep
  · intro i
    exact setOAuthConfig_getElem? s.config.Endpoints ep i

/-- C11. Environment overrides: after `applyEnvironmentOverrides` (which returns no
error), a non-empty `ADMIN_USERNAME` is the `Auth.Username` and `Auth.Enabled`
is true; a non-empty `ADMIN_PASSWORD` is the `Auth.Password` and `Auth.Enabled`
is true; with both empty `Auth.Username`, `Auth.Password` and `Auth.Enabled`
are unchanged; every section other than `Auth` is unchanged; and
`Auth.SessionTimeout` is unchanged, or was empty, is now the default, and
`Auth.Enabled` is true. -/
theorem applyEnvironmentOverrides_spec (defaultSessionTimeout : String)
    (getenv : String → String) (cfg : Config) :
    (applyEnvironmentOverrides defaultSessionTimeout getenv cfg).2 = none ∧
    (getenv "ADMIN_USERNAME" ≠ "" →
      (applyEnvironmentOverrides defaultSessionTimeout getenv cfg).1.Auth.Username =
          getenv "ADMIN_USERNAME" ∧
        (applyEnvironmentOverrides defaultSessionTimeout getenv cfg).1.Auth.Enabled = true) ∧
    (getenv "ADMIN_PASSWORD" ≠ "" →
      (applyEnvironmentOverrides defaultSessionTimeout getenv cfg).1.Auth.Password =
          getenv "ADMIN_PASSWORD" ∧
        (applyEnvironmentOverrides defaultSessionTimeout getenv cfg).1.Auth.Enabled = true) ∧
    (getenv "ADMIN_USERNAME" = "" → getenv "ADMIN_PASSWORD" = "" →
      (applyEnvironmentOverrides defaultSessionTimeout getenv cfg).1.Auth.Username =
          cfg.Auth.Username ∧
        (applyEnvironmentOverrides defaultSessionTimeout getenv cfg).1.Auth.Password =
          cfg.Auth.Password ∧
        (applyEnvironmentOverrides defaultSessionTimeout getenv cfg).1.Auth.Enabled =
          cfg.Auth.Enabled) ∧
    ((applyEnvironmentOverrides defaultSessionTimeout getenv cfg).1.Server = cfg.Server ∧
      (applyEnvironmentOverrides defaultSessionTimeout getenv cfg).1.Endpoints = cfg.Endpoints ∧
      (applyEnvironmentOverrides defaultSessionTimeout getenv cfg).1.Logging = cfg.Logging ∧
      (applyEnvironmentOverrides defaultSessionTimeout getenv cfg).1.Validation =
        cfg.Validation ∧
      (applyEnvironmentOverrides defaultSessionTimeout getenv cfg).1.Tagging = cfg.Tagging ∧
      (applyEnvironmentOverrides defaultSessionTimeout getenv cfg).1.Timeouts = cfg.Timeouts ∧
      (applyEnvironmentOverrides defaultSessionTimeout getenv cfg).1.ClientAuth =
        cfg.ClientAuth) ∧
    ((applyEnvironmentOverrides defaultSessionTimeout getenv cfg).1.Auth.SessionTimeout =
        cfg.Auth.SessionTimeout ∨
      (cfg.Auth.SessionTimeout = "" ∧
        (applyEnvironmentOverrides defaultSessionTimeout getenv cfg).1.Auth.SessionTimeout =
          defaultSessionTimeout ∧
        (applyEnvironmentOverrides defaultSessionTimeout getenv cfg).1.Auth.Enabled = true)) := by
  simp only [applyEnvironmentOverrides]
  by_cases hu : getenv "ADMIN_USERNAME" = "" <;>
    by_cases hp : getenv "ADMIN_PASSWORD" = "" <;>
    by_cases ht : cfg.Auth.SessionTimeout = "" <;>
    cases he : cfg.Auth.Enabled <;>
    simp [hu, hp, ht, he]

/-- C12. Client auth token format: when the random source delivers 24 bytes,
`GenerateClientAuthToken` returns without error a token of length 51, made of
`sk-` followed by 48 lowercase hexadecimal digits that decode back to the 24
bytes; hence different random bytes give different tokens. -/
theorem GenerateClientAuthToken_format (randomBytes : List Nat)
    (hlen : randomBytes.length = 24) (hb : ∀ b ∈ randomBytes, b < 256) :
    ∃ token : String,
      GenerateClientAuthToken (.ok randomBytes) = .ok token ∧
      token.length = 51 ∧
      (∃ hex : String, token = "sk-" ++ hex ∧ hex.length = 48 ∧
        (∀ c ∈ hex.data, c ∈ "0123456789abcdef".data) ∧
        DecodeString hex = some randomBytes) ∧
      (∀ other : List Nat, other.length = 24 → (∀ b ∈ other, b < 256) →
        GenerateClientAuthToken (.ok other) = .ok token → other = randomBytes) := by
  have hE : (EncodeToString randomBytes).length = 48 := by
    show (encodeBytes randomBytes).length = 48
    rw [encodeBytes_length, hlen]
  refine ⟨"sk-" ++ EncodeToString randomBytes, rfl, ?_, ?_, ?_⟩
  · rw [String.length_append, hE]
    rfl
  · refine ⟨EncodeToString randomBytes, rfl, hE, ?_, ?_⟩
    · exact encodeBytes_mem_hextable randomBytes hb
    · exact decodeChars_encodeBytes randomBytes hb
  · intro other _ hob hEq
    simp only [GenerateClientAuthToken, Except.ok.injEq] at hEq
    have hdata := congrArg String.data hEq
    simp only [String.data_append, List.append_cancel_left_eq, EncodeToString] at hdata
    have h1 := decodeChars_encodeBytes other hob
    have h2 := decodeChars_encodeBytes randomBytes hb
    rw [hdata, h2] at h1
    exact (Option.some.inj h1).symm

/-- Witness of C12: the 24 bytes 0, 1, ..., 23. -/
theorem GenerateClientAuthToken_format_witness :
    GenerateClientAuthToken (.ok (List.range 24)) =
      .ok "sk-000102030405060708090a0b0c0d0e0f1011121314151617" ∧
    ∃ token : String, GenerateClientAuthToken (.ok (List.range 24)) = .ok token ∧
      token.length = 51 :=
  ⟨rfl,
   (GenerateClientAuthToken_format (List.range 24) (by decide) (by decide)).elim
     (fun token h => ⟨token, h.1, h.2.1⟩)⟩

/-- C13. Hot update rejects non-hot-updatable changes atomically: a new
configuration whose `Server.Host` or `Server.Port` differs from the current one,
or whose endpoint list is empty, makes `HotUpdateConfig` return an error and
leave the server unchanged (configuration, endpoint manager, validator,
credentials and log); and `Server.Host` and `Server.Port` of the in-memory
configuration are the same after any sequence of `HotUpdateConfig` calls. -/
theorem HotUpdateConfig_rejects_atomically (b : Bcrypt)
    (UpdateEndpoints : List Endpoint → List EndpointConfig → List Endpoint)
    (s : Server) (newConfig : Config) :
    ((newConfig.Server.Host ≠ s.config.Server.Host ∨
        newConfig.Server.Port ≠ s.config.Server.Port ∨ newConfig.Endpoints = []) →
      (HotUpdateConfig b UpdateEndpoints s newConfig).2 ≠ none ∧
      (HotUpdateConfig b UpdateEndpoints s newConfig).1 = s) ∧
    (∀ newConfigs : List Config,
      (HotUpdateConfigs b UpdateEndpoints s newConfigs).config.Server.Host =
          s.config.Server.Host ∧
        (HotUpdateConfigs b UpdateEndpoints s newConfigs).config.Server.Port =
          s.config.Server.Port) := by
  constructor
  · intro h
    cases hv : validateConfigForHotUpdate s newConfig with
    | none =>
      obtain ⟨hh, hp, he⟩ := (validateConfigForHotUpdate_none s newConfig).mp hv
      rcases h with h | h | h
      · exact absurd hh h
      · exact absurd hp h
      · exact absurd h he
    | some err =>
      rw [HotUpdateConfig_of_invalid b UpdateEndpoints s newConfig err hv]
      simp
  · intro newConfigs
    rw [HotUpdateConfigs_server]
    exact ⟨rfl, rfl⟩

/-- C14, evaluation at the failing input. The current log directory is `./logs`,
the new configuration differs only in its log directory `/tmp/other`:
`HotUpdateConfig` returns no error, logs that the logging update failed, and
the in-memory `s.config.Logging.LogDirectory` is `/tmp/other`. -/
theorem HotUpdateConfig_changes_log_directory :
    (HotUpdateConfig ⟨fun p => .ok ("hash:" ++ p), fun h p => decide (h = "hash:" ++ p)⟩
      (fun eps _ => eps)
      ⟨⟨⟨"127.0.0.1", 8080⟩, [⟨"x", "u", "anthropic", "", "api_key", "k", true, 1, [], none⟩],
          ⟨"info", "failed", "truncated", "truncated", "./logs"⟩, ⟨[]⟩, ⟨"5s", []⟩,
          ⟨"", "", "", "", ""⟩, ⟨false, "", "", ""⟩, ⟨false, ""⟩⟩,
        [], 0, ⟨"", "", false⟩, []⟩
      ⟨⟨"127.0.0.1", 8080⟩, [⟨"x", "u", "anthropic", "", "api_key", "k", true, 1, [], none⟩],
        ⟨"info", "failed", "truncated", "truncated", "/tmp/other"⟩, ⟨[]⟩, ⟨"5s", []⟩,
        ⟨"", "", "", "", ""⟩, ⟨false, "", "", ""⟩, ⟨false, ""⟩⟩).2 = none ∧
    (HotUpdateConfig ⟨fun p => .ok ("hash:" ++ p), fun h p => decide (h = "hash:" ++ p)⟩
      (fun eps _ => eps)
      ⟨⟨⟨"127.0.0.1", 8080⟩, [⟨"x", "u", "anthropic", "", "api_key", "k", true, 1, [], none⟩],
          ⟨"info", "failed", "truncated", "truncated", "./logs"⟩, ⟨[]⟩, ⟨"5s", []⟩,
          ⟨"", "", "", "", ""⟩, ⟨false, "", "", ""⟩, ⟨false, ""⟩⟩,
        [], 0, ⟨"", "", false⟩, []⟩
      ⟨⟨"127.0.0.1", 8080⟩, [⟨"x", "u", "anthropic", "", "api_key", "k", true, 1, [], none⟩],
        ⟨"info", "failed", "truncated", "truncated", "/tmp/other"⟩, ⟨[]⟩, ⟨"5s", []⟩,
        ⟨"", "", "", "", ""⟩, ⟨false, "", "", ""⟩, ⟨false, ""⟩⟩).1.config.Logging.LogDirectory =
      "/tmp/other" ∧
    (HotUpdateConfig ⟨fun p => .ok ("hash:" ++ p), fun h p => decide (h = "hash:" ++ p)⟩
      (fun eps _ => eps)
      ⟨⟨⟨"127.0.0.1", 8080⟩, [⟨"x", "u", "anthropic", "", "api_key", "k", true, 1, [], none⟩],
          ⟨"info", "failed", "truncated", "truncated", "./logs"⟩, ⟨[]⟩, ⟨"5s", []⟩,
          ⟨"", "", "", "", ""⟩, ⟨false, "", "", ""⟩, ⟨false, ""⟩⟩,
        [], 0, ⟨"", "", false⟩, []⟩
      ⟨⟨"127.0.0.1", 8080⟩, [⟨"x", "u", "anthropic", "", "api_key", "k", true, 1, [], none⟩],
        ⟨"info", "failed", "truncated", "truncated", "/tmp/other"⟩, ⟨[]⟩, ⟨"5s", []⟩,
        ⟨"", "", "", "", ""⟩, ⟨false, "", "", ""⟩, ⟨false, ""⟩⟩).1.logs =
      ["Starting configuration hot update",
       "Failed to update logging config, continuing with endpoint updates: log directory cannot be changed via hot update",
       "Configuration hot update completed successfully"] := by
  decide

/-- C16. Credential validation: `ValidateCredentials` returns true when
authentication is disabled; when enabled it returns true iff the username equals
the configured one, a non-empty password hash is stored and the password
verifies against that hash. An enabled manager made by `NewAuthManager` or
updated by `UpdateCredentials` with an empty password rejects every pair, and
one made with any non-empty password `p0` accepts `(u, p)` iff `u` is the
configured username and `p` verifies against the non-empty hash generated for
`p0` (so it accepts nothing when no hash could be generated). -/
theorem ValidateCredentials_spec (b : Bcrypt) (am : AuthManager) (u p : String) :
    (am.enabled = false → ValidateCredentials b am u p = true) ∧
    (am.enabled = true →
      (ValidateCredentials b am u p = true ↔
        u = am.username ∧ am.passwordHash ≠ "" ∧
          b.CompareHashAndPassword am.passwordHash p = true)) ∧
    (∀ u0 : String, ValidateCredentials b (NewAuthManager b u0 "" true) u p = false) ∧
    (∀ u0 : String,
      (UpdateCredentials b am u0 "" true).2 = none ∧
      ValidateCredentials b (UpdateCredentials b am u0 "" true).1 u p = false) ∧
    (∀ u0 p0 : String, p0 ≠ "" →
      (ValidateCredentials b (NewAuthManager b u0 p0 true) u p = true ↔
        u = u0 ∧ ∃ h : String, b.GenerateFromPassword p0 = .ok h ∧ h ≠ "" ∧
          b.CompareHashAndPassword h p = true)) := by
  have hcmp : ∀ x y : String, constantTimeStringCompare x y = true ↔ x = y := by
    intro x y
    simp [constantTimeStringCompare, ConstantTimeCompare_eq_one]
  have hen : ∀ m : AuthManager, m.enabled = true →
      (ValidateCredentials b m u p = true ↔
        u = m.username ∧ m.passwordHash ≠ "" ∧
          b.CompareHashAndPassword m.passwordHash p = true) := by
    intro m hm
    unfold ValidateCredentials
    by_cases hu : u = m.username
    · have hc : constantTimeStringCompare u m.username = true := (hcmp _ _).mpr hu
      by_cases hh : m.passwordHash = ""
      · simp [hm, hc, hh]
      · simp only [hm, hc, hh]
        simp [hu, hh]
    · have hc : constantTimeStringCompare u m.username = false := by
        cases hcb : constantTimeStringCompare u m.username with
        | false => rfl
        | true => exact absurd ((hcmp _ _).mp hcb) hu
      simp [hm, hc, hu]
  have hrej : ∀ m : AuthManager, m.enabled = true → m.passwordHash = "" →
      ValidateCredentials b m u p = false := by
    intro m hm hh
    cases hv : ValidateCredentials b m u p with
    | false => rfl
    | true => exact absurd hh ((hen m hm).mp hv).2.1
  refine ⟨?_, hen am, ?_, ?_, ?_⟩
  · intro hdis
    simp [ValidateCredentials, hdis]
  · intro u0
    exact hrej _ rfl rfl
  · intro u0
    exact ⟨rfl, hrej _ rfl rfl⟩
  · intro u0 p0 hp0
    cases hgen : b.GenerateFromPassword p0 with
    | error e =>
      have hm : NewAuthManager b u0 p0 true = ⟨u0, "", true⟩ := by
        simp [NewAuthManager, hp0, hgen]
      rw [hm, hrej ⟨u0, "", true⟩ rfl rfl]
      simp
    | ok h =>
      have hm : NewAuthManager b u0 p0 true = ⟨u0, h, true⟩ := by
        simp [NewAuthManager, hp0, hgen]
      rw [hm, hen ⟨u0, h, true⟩ rfl]
      simp

/-- C15, evaluation at the failing input. `url.Parse` reads `//evil.com/admin/` as
a URL with no scheme, host `evil.com` and path `/admin/`; `isValidRedirectURL`
accepts it, although it names another host, and after a successful login
`handleLoginSubmit` redirects to it. (`isAdminPath p` itself never panics and is
true iff `p` is `/admin` or begins with `/admin/`.) -/
theorem isValidRedirectURL_accepts_foreign_host (b : Bcrypt)
    (urlParse : String → Except String URL) (am : AuthManager)
    (ValidateToken : String → Bool) (sessionID : String) (form : LoginForm)
    (hparse : urlParse "//evil.com/admin/" = .ok ⟨"", "evil.com", "/admin/"⟩)
    (hen : am.enabled = true) (hcsrf : ValidateToken form.csrfToken = true)
    (hu : form.username ≠ "") (hp : form.password ≠ "")
    (hcred : ValidateCredentials b am form.username form.password = true)
    (hr : form.redirectTo = "//evil.com/admin/") :
    isValidRedirectURL urlParse "//evil.com/admin/" = some true ∧
    handleLoginSubmit b urlParse am ValidateToken sessionID form =
      some [LoginEvent.createSession form.username, LoginEvent.setSessionCookie sessionID,
            LoginEvent.redirect 302 "//evil.com/admin/"] ∧
    (∀ p : String,
      isAdminPath p = some (decide (p = "/admin" ∨ HasPrefix p "/admin/" = true))) := by
  have hvalid : isValidRedirectURL urlParse "//evil.com/admin/" = some true := by
    unfold isValidRedirectURL
    rw [hparse]
    decide
  refine ⟨hvalid, ?_, isAdminPath_eq⟩
  unfold handleLoginSubmit
  simp [hen, hcsrf, hu, hp, hcred, hr, hvalid, StatusFound]

/-- Witness of C15: an enabled manager, a valid form whose `redirect_to` is
`//evil.com/admin/`. -/
theorem isValidRedirectURL_accepts_foreign_host_witness :
    handleLoginSubmit ⟨fun p => .ok ("hash:" ++ p), fun h p => decide (h = "hash:" ++ p)⟩
      (fun _ => .ok ⟨"", "evil.com", "/admin/"⟩) ⟨"admin", "hash:pw", true⟩ (fun _ => true) "sid"
      ⟨"t", "admin", "pw", "//evil.com/admin/"⟩ =
      some [LoginEvent.createSession "admin", LoginEvent.setSessionCookie "sid",
            LoginEvent.redirect 302 "//evil.com/admin/"] :=
  (isValidRedirectURL_accepts_foreign_host
      ⟨fun p => .ok ("hash:" ++ p), fun h p => decide (h = "hash:" ++ p)⟩
      (fun _ => .ok ⟨"", "evil.com", "/admin/"⟩) ⟨"admin", "hash:pw", true⟩ (fun _ => true) "sid"
      ⟨"t", "admin", "pw", "//evil.com/admin/"⟩ rfl rfl rfl (by decide) (by decide)
      (by decide) rfl).2.1

end Companion
